import Mathlib

/-!
Verification of the deployment-orchestration engine of the repository
(create-app route, provider service clients, deployment event bus).

The development shallowly embeds the TypeScript sources:

* `MongoDBService.waitForCluster` and `VercelService.waitForDeployment`
  (the provider polling loops) are embedded as terminating recursive
  functions over an abstract resource-state trace `Nat → state`,
  where the argument is the elapsed time in milliseconds.  Polls are
  modelled as instantaneous, so the loop observes the state at times
  0, i, 2i, ... for polling interval i, exactly as the source's
  while-loop does between its setTimeout sleeps.
* The `initiateDeployment` orchestration of
  src/app/api/create-app/route.ts is embedded as a function from the
  outcomes of the external provider calls (each call is an oracle
  input, since its result is determined by the outside world) to the
  list of MongoDB record updates it performs; a separate interpreter
  applies that write trace to the deployment record.
* `DeploymentOrchestrator.deployApplication` of
  src/lib/services/deployment-orchestrator.ts is embedded the same
  way, returning the thrown-or-returned result together with the
  progress log.
* The `DeploymentEmitter` event bus of src/lib/deployment-events.ts is
  embedded as a subscription list with set semantics.

Timestamps (`new Date()` values) are modelled as an abstract
monotonically increasing counter; only their presence or absence is
relevant to the verified properties.
-/

/-! ## Basic status enumerations -/

/-- Per-step status values used by the create-app route
(strings "pending", "in-progress", "completed", "error" in the source). -/
inductive StepStatus
  | pending
  | inProgress
  | completed
  | error
deriving DecidableEq, Repr

/-- Record-level status values written by the route
("pending" at creation, then "failed" or "completed"). -/
inductive DeployStatus
  | pending
  | completed
  | failed
deriving DecidableEq, Repr

/-- MongoDB Atlas cluster states (`MongoDBCluster.stateName` in
src/lib/services/mongodb.ts). -/
inductive ClusterState
  | IDLE
  | CREATING
  | UPDATING
  | DELETING
  | DELETED
  | REPAIRING
deriving DecidableEq, Repr

/-- Vercel deployment states (`VercelDeployment.readyState` in
src/lib/services/vercel.ts). -/
inductive ReadyState
  | BUILDING
  | READY
  | ERROR
  | CANCELED
deriving DecidableEq, Repr

/-- Decidable equality for `Except`, needed to evaluate run results
on concrete inputs. -/
instance {e a : Type} [DecidableEq e] [DecidableEq a] : DecidableEq (Except e a) :=
  fun x y =>
    match x, y with
    | Except.ok u, Except.ok v =>
        if h : u = v then isTrue (by rw [h])
        else isFalse (fun hc => h (Except.ok.inj hc))
    | Except.error u, Except.error v =>
        if h : u = v then isTrue (by rw [h])
        else isFalse (fun hc => h (Except.error.inj hc))
    | Except.ok _, Except.error _ => isFalse (fun hc => Except.noConfusion hc)
    | Except.error _, Except.ok _ => isFalse (fun hc => Except.noConfusion hc)

/-! ## Provider polling loops

`MongoDBService.waitForCluster` polls `getCluster` while
`Date.now() - startTime < maxWaitTime`, returning the cluster once
`stateName === IDLE`, throwing "Cluster was deleted" on `DELETED`,
sleeping `pollInterval` between polls, and throwing
"Cluster creation timeout exceeded" when the loop condition fails.
The cluster trace is abstracted as `s : Nat → ClusterState` (state at
elapsed time t); the result records the poll time at which the loop
exited. -/

/-- Outcome of a `waitForCluster` run: the cluster returned at poll
time t, the thrown deleted error, or the thrown timeout error. -/
inductive MongoWaitResult
  | ready (t : Nat)
  | deleted
  | timeout
deriving DecidableEq, Repr

/-- Outcome of a `waitForDeployment` run: the deployment (with its
readyState) returned at poll time t, or the thrown timeout error.
Note the source returns normally on both READY and ERROR. -/
inductive VercelWaitResult
  | done (st : ReadyState) (t : Nat)
  | timeout
deriving DecidableEq, Repr

namespace MongoDBService

/-- One loop iteration of `waitForCluster`, entered with elapsed time
t.  The source requires a positive poll interval to make progress;
`hI` records that side condition. -/
def waitForClusterAux (s : Nat → ClusterState) (maxWaitTime pollInterval : Nat)
    (hI : 0 < pollInterval) (t : Nat) : MongoWaitResult :=
  if h : t < maxWaitTime then
    if s t = ClusterState.IDLE then
      MongoWaitResult.ready t
    else if s t = ClusterState.DELETED then
      MongoWaitResult.deleted
    else
      waitForClusterAux s maxWaitTime pollInterval hI (t + pollInterval)
  else
    MongoWaitResult.timeout
termination_by maxWaitTime - t
decreasing_by omega

/-- `MongoDBService.waitForCluster`: the polling loop started at
elapsed time 0. -/
def waitForCluster (s : Nat → ClusterState) (maxWaitTime pollInterval : Nat)
    (hI : 0 < pollInterval) : MongoWaitResult :=
  waitForClusterAux s maxWaitTime pollInterval hI 0

end MongoDBService

namespace VercelService

/-- One loop iteration of `waitForDeployment`, entered with elapsed
time t.  The loop returns the deployment as soon as its readyState is
READY or ERROR, and throws only on timeout. -/
def waitForDeploymentAux (s : Nat → ReadyState) (maxWaitTime pollInterval : Nat)
    (hI : 0 < pollInterval) (t : Nat) : VercelWaitResult :=
  if h : t < maxWaitTime then
    if s t = ReadyState.READY ∨ s t = ReadyState.ERROR then
      VercelWaitResult.done (s t) t
    else
      waitForDeploymentAux s maxWaitTime pollInterval hI (t + pollInterval)
  else
    VercelWaitResult.timeout
termination_by maxWaitTime - t
decreasing_by omega

/-- `VercelService.waitForDeployment`: the polling loop started at
elapsed time 0. -/
def waitForDeployment (s : Nat → ReadyState) (maxWaitTime pollInterval : Nat)
    (hI : 0 < pollInterval) : VercelWaitResult :=
  waitForDeploymentAux s maxWaitTime pollInterval hI 0

end VercelService

/-! ## Data model of the create-app route (src/app/api/create-app/route.ts)

Provider-side objects.  Only the fields the orchestration reads are
modelled; the TypeScript interfaces carry further fields that the
route never touches. -/

/-- Result of `GitHubService.createRepository`. -/
structure GitHubRepo where
  name : String
  htmlUrl : String
  cloneUrl : String
deriving DecidableEq, Repr

/-- Result of `VercelService.createProject`.  `productionUrl` models
`project.targets?.production?.url`, which the route reads with
optional chaining and a null fallback. -/
structure VercelProject where
  id : String
  productionUrl : Option String
deriving DecidableEq, Repr

/-- Result of `MongoDBService.createProject` (an Atlas project). -/
structure MongoDBProject where
  id : String
  name : String
  orgId : String
deriving DecidableEq, Repr

/-- The connection-string pair of an Atlas cluster. -/
structure ConnectionStrings where
  standard : String
  standardSrv : String
deriving DecidableEq, Repr

/-- Result of `MongoDBService.createCluster` / `getCluster`. -/
structure MongoDBCluster where
  id : String
  name : String
  connectionStrings : ConnectionStrings
  stateName : ClusterState
deriving DecidableEq, Repr

/-- Result of `ClerkService.createApplication`. -/
structure ClerkApp where
  id : String
deriving DecidableEq, Repr

/-- Replace the first occurrence of `pat` in a character list with
`repl`, as the JS `String.prototype.replace` does for a plain-string
pattern. -/
def replaceFirstAux (pat repl : List Char) : List Char → List Char
  | [] => []
  | c :: cs =>
      if pat.isPrefixOf (c :: cs) then repl ++ (c :: cs).drop pat.length
      else c :: replaceFirstAux pat repl cs

/-- String wrapper of `replaceFirstAux`. -/
def replaceFirst (s pat repl : String) : String :=
  ⟨replaceFirstAux pat.toList repl.toList s.toList⟩

/-- `MongoDBService.generateConnectionString`.  The JS
`String.prototype.replace` with a plain-string pattern substitutes
only the first occurrence; `replaceFirst` mirrors that. -/
def generateConnectionString (cluster : MongoDBCluster)
    (username password databaseName : String) : String :=
  (replaceFirst (replaceFirst cluster.connectionStrings.standardSrv
      "<password>" password) "<username>" username) ++
    "/" ++ databaseName ++ "?retryWrites=true&w=majority"

/-- The database name derived from the project name
(`request.projectName.replace(/\s+/g, '_').toLowerCase()`).  The JS
regex collapses a run of whitespace into one underscore; this model
maps each space character, which agrees on single-space-separated
names and is immaterial to the proved properties. -/
def databaseNameOf (projectName : String) : String :=
  ⟨projectName.toList.map (fun c => if c = ' ' then '_' else c.toLower)⟩

/-- Request body of the create-app POST route (`CreateAppRequest`).
A missing or empty field is modelled as the empty string, matching the
JS falsiness check used for validation. -/
structure CreateAppRequest where
  projectName : String
  description : String
  template : String
  githubRepo : String
  domain : Option String
  targetCluster : String
  features : List String
deriving DecidableEq, Repr

/-- The per-provider API keys assembled by the POST handler
(`ApiKeys`).  An unset environment variable is the empty string
(the source normalizes with `|| ''`). -/
structure ApiKeys where
  github : String
  vercel : String
  mongodb : String
  clerk : String
  googleCloud : String
deriving DecidableEq, Repr

/-- The environment variables the route reads beyond the five API
keys.  Unset values are modelled as the empty string, matching the
`?? ''` / `|| ''` normalizations and JS falsiness checks in the
source. -/
structure RouteEnv where
  GITHUB_USERNAME : String
  VERCEL_TEAM_ID : Option String
  MONGODB_PRIVATE_KEY : String
  MONGODB_ORG_ID : String
  GOOGLE_CLIENT_EMAIL : String
  GOOGLE_PRIVATE_KEY : String
deriving DecidableEq, Repr

/-- Outcomes of the external provider calls made by
`initiateDeployment`.  Each field is the oracle result of one call:
`Except.error e` models the call throwing with message e (the source
stringifies thrown errors with `String(err)`).  The two `wait`
outcomes are carried for completeness but are unused by the write
trace: the source wraps both `waitForDeployment` and `waitForCluster`
in inner try/catch blocks that only log a warning, so neither result
can influence the record.  `mongo_dbPassword` and `google_projectId`
stand for the `Math.random()`-derived values of the source. -/
structure RouteOutcomes where
  github_createRepository : Except String GitHubRepo
  vercel_createProject : Except String VercelProject
  vercel_getProjectDeployments : Except String (List String)
  vercel_waitForDeployment : VercelWaitResult
  mongo_createProject : Except String MongoDBProject
  mongo_createCluster : Except String MongoDBCluster
  mongo_waitForCluster : MongoWaitResult
  mongo_addIPWhitelist : Except String Unit
  mongo_createDatabaseUser : Except String Unit
  mongo_getCluster : Except String MongoDBCluster
  mongo_dbPassword : String
  clerk_createApplication : Except String ClerkApp
  clerk_setupDefaultConfiguration : Except String Unit
  clerk_createAPIKeys : Except String (String × String)
  google_createProject : Except String Unit
  google_projectId : String

/-- One step entry of the deployment record.  All five mutable fields
are optional: the `$set` update of `updateStep` writes `undefined`
(serialized as an absent/null value) for every field missing from its
patch, so `none` models both "never written" and "erased". -/
structure Step where
  id : String
  name : String
  status : Option StepStatus
  startedAt : Option Nat
  completedAt : Option Nat
  message : Option String
  error : Option String
deriving DecidableEq, Repr

/-- The deployment record stored in the `deployments` collection. -/
structure DeploymentRecord where
  deploymentId : String
  projectName : String
  description : String
  template : String
  githubRepo : String
  domain : Option String
  targetCluster : String
  features : List String
  status : DeployStatus
  steps : List Step
  error : Option String
  errorStep : Option String
  githubUrl : Option String
  vercelUrl : Option String
  mongodbConnectionString : Option String
  clerkApplicationId : Option String
  clerkPublishableKey : Option String
  clerkSecretKey : Option String
  googleCloudProjectId : Option String
  createdAt : Nat
  updatedAt : Nat
  completedAt : Option Nat
deriving DecidableEq, Repr

/-- The patch argument of the `updateStep` helper: the `data` object
whose five properties are written into the matched step by `$set`. -/
structure StepPatch where
  status : Option StepStatus
  startedAt : Option Nat
  completedAt : Option Nat
  message : Option String
  error : Option String
deriving DecidableEq, Repr

/-- One `db.collection('deployments').updateOne` call on the record
itself, one constructor per distinct `$set` shape in the source. -/
inductive FieldsWrite
  | setGithubUrl (url : String)
  | setVercelUrl (url : Option String)
  | setMongoConnectionString (conn : String)
  | setClerkKeys (appId pub sec : String)
  | setGoogleProjectId (pid : String)
  | failWith (e stepId : String) (now : Nat)
  | complete (now : Nat)
deriving DecidableEq, Repr

/-- One database write performed by `initiateDeployment`: either an
`updateStep` call (which also bumps `updatedAt` to `now`) or a
record-level `updateOne`. -/
inductive Write
  | step (stepId : String) (patch : StepPatch) (now : Nat)
  | fields (w : FieldsWrite)
deriving DecidableEq, Repr

/-- `$set` of the five step fields: every field of the stored step is
overwritten with the corresponding patch field, present or not. -/
def applyPatch (p : StepPatch) (s : Step) : Step :=
  { s with
    status := p.status
    startedAt := p.startedAt
    completedAt := p.completedAt
    message := p.message
    error := p.error }

/-- The positional `steps.$` update: the first step whose id matches
the filter is overwritten. -/
def updateSteps (sid : String) (p : StepPatch) : List Step → List Step
  | [] => []
  | s :: rest =>
      if s.id = sid then applyPatch p s :: rest
      else s :: updateSteps sid p rest

/-- Apply one write to the record.  An `updateStep` whose step id
matches no step is a no-op, mirroring a MongoDB update whose filter
`{deploymentId, steps.id}` matches no document. -/
def applyWrite (r : DeploymentRecord) : Write → DeploymentRecord
  | Write.step sid p now =>
      if r.steps.any (fun s => s.id = sid) then
        { r with steps := updateSteps sid p r.steps, updatedAt := now }
      else r
  | Write.fields (FieldsWrite.setGithubUrl u) => { r with githubUrl := some u }
  | Write.fields (FieldsWrite.setVercelUrl u) => { r with vercelUrl := u }
  | Write.fields (FieldsWrite.setMongoConnectionString c) =>
      { r with mongodbConnectionString := some c }
  | Write.fields (FieldsWrite.setClerkKeys a pub sec) =>
      { r with
        clerkApplicationId := some a
        clerkPublishableKey := some pub
        clerkSecretKey := some sec }
  | Write.fields (FieldsWrite.setGoogleProjectId pid) =>
      { r with googleCloudProjectId := some pid }
  | Write.fields (FieldsWrite.failWith e sid now) =>
      { r with
        status := DeployStatus.failed
        error := some e
        errorStep := some sid
        completedAt := some now }
  | Write.fields (FieldsWrite.complete now) =>
      { r with status := DeployStatus.completed, completedAt := some now }

/-- Apply a write trace left to right. -/
def applyTrace (r : DeploymentRecord) (tr : List Write) : DeploymentRecord :=
  tr.foldl applyWrite r

/-- The initial `steps` array built by `createDeploymentRecord`. -/
def initialSteps : List Step :=
  [⟨"github", "Create GitHub Repository", some StepStatus.pending, none, none, none, none⟩,
   ⟨"vercel", "Create Vercel Project & Deploy", some StepStatus.pending, none, none, none, none⟩,
   ⟨"mongodb", "Provision MongoDB Atlas Cluster", some StepStatus.pending, none, none, none, none⟩,
   ⟨"clerk", "Create Clerk Application", some StepStatus.pending, none, none, none, none⟩,
   ⟨"google", "Setup Google Cloud Project", some StepStatus.pending, none, none, none, none⟩]

/-- `createDeploymentRecord`: the record inserted at submission time,
with every step pending.  The two `new Date()` values are time 0 of
the abstract clock. -/
def createDeploymentRecord (req : CreateAppRequest) (deploymentId : String) :
    DeploymentRecord :=
  { deploymentId := deploymentId
    projectName := req.projectName
    description := req.description
    template := req.template
    githubRepo := req.githubRepo
    domain := req.domain
    targetCluster := req.targetCluster
    features := req.features
    status := DeployStatus.pending
    steps := initialSteps
    error := none
    errorStep := none
    githubUrl := none
    vercelUrl := none
    mongodbConnectionString := none
    clerkApplicationId := none
    clerkPublishableKey := none
    clerkSecretKey := none
    googleCloudProjectId := none
    createdAt := 0
    updatedAt := 0
    completedAt := none }

/-- The patch of `updateStep(id, { status: 'in-progress', startedAt: new Date() })`. -/
def inProgressPatch (now : Nat) : StepPatch :=
  ⟨some StepStatus.inProgress, some now, none, none, none⟩

/-- The patch of `updateStep(id, { status: 'completed', completedAt: new Date() })`. -/
def completedPatch (now : Nat) : StepPatch :=
  ⟨some StepStatus.completed, none, some now, none, none⟩

/-- The patch of `updateStep(id, { status: 'error', completedAt: new Date(), error: String(err) })`. -/
def errorPatch (now : Nat) (e : String) : StepPatch :=
  ⟨some StepStatus.error, none, some now, none, some e⟩

/-! ## The orchestration of `initiateDeployment`

Each step block below returns the list of database writes it performs,
the advanced clock, and whether the orchestration continues (false =
the catch block ran `return` to abort further steps). -/

/-- Step 1: create the GitHub repository. -/
def githubStepWrites (oc : RouteOutcomes) (t : Nat) : List Write × Nat × Bool :=
  match oc.github_createRepository with
  | Except.ok repo =>
      ([Write.step "github" (inProgressPatch t) t,
        Write.fields (FieldsWrite.setGithubUrl repo.htmlUrl),
        Write.step "github" (completedPatch (t + 1)) (t + 1)],
       t + 2, true)
  | Except.error e =>
      ([Write.step "github" (inProgressPatch t) t,
        Write.step "github" (errorPatch (t + 1) e) (t + 1),
        Write.fields (FieldsWrite.failWith e "github" (t + 2))],
       t + 3, false)

/-- The error path shared by the catch block of the Vercel step. -/
def vercelStepFail (t : Nat) (e : String) : List Write × Nat × Bool :=
  ([Write.step "vercel" (inProgressPatch t) t,
    Write.step "vercel" (errorPatch (t + 1) e) (t + 1),
    Write.fields (FieldsWrite.failWith e "vercel" (t + 2))],
   t + 3, false)

/-- Step 2: create the Vercel project and record its production URL.
The `waitForDeployment` block sits inside its own try/catch whose
catch only logs a warning, so it performs no database write and
cannot fail the step; its outcome is therefore not consulted here. -/
def vercelStepWrites (keys : ApiKeys) (oc : RouteOutcomes) (t : Nat) :
    List Write × Nat × Bool :=
  if keys.vercel = "" then
    vercelStepFail t "Missing VERCEL_TOKEN env variable"
  else
    match oc.vercel_createProject with
    | Except.error e => vercelStepFail t e
    | Except.ok project =>
        match oc.vercel_getProjectDeployments with
        | Except.error e => vercelStepFail t e
        | Except.ok _deployments =>
            ([Write.step "vercel" (inProgressPatch t) t,
              Write.fields (FieldsWrite.setVercelUrl
                (project.productionUrl.map (fun u => "https://" ++ u))),
              Write.step "vercel" (completedPatch (t + 1)) (t + 1)],
             t + 2, true)

/-- The error path shared by the catch block of the MongoDB step. -/
def mongoStepFail (t : Nat) (e : String) : List Write × Nat × Bool :=
  ([Write.step "mongodb" (inProgressPatch t) t,
    Write.step "mongodb" (errorPatch (t + 1) e) (t + 1),
    Write.fields (FieldsWrite.failWith e "mongodb" (t + 2))],
   t + 3, false)

/-- Step 3: provision the Atlas cluster.  The `waitForCluster` call
sits inside its own try/catch whose catch only logs a warning and
proceeds, so its outcome (including a timeout) performs no database
write and cannot fail the step. -/
def mongoStepWrites (env : RouteEnv) (keys : ApiKeys) (req : CreateAppRequest)
    (oc : RouteOutcomes) (t : Nat) : List Write × Nat × Bool :=
  if keys.mongodb = "" ∨ env.MONGODB_PRIVATE_KEY = "" ∨ env.MONGODB_ORG_ID = "" then
    mongoStepFail t
      "Missing MongoDB Atlas API credentials (MONGODB_ATLAS_API_KEY, MONGODB_PRIVATE_KEY, MONGODB_ORG_ID)"
  else
    match oc.mongo_createProject with
    | Except.error e => mongoStepFail t e
    | Except.ok _atlasProject =>
        match oc.mongo_createCluster with
        | Except.error e => mongoStepFail t e
        | Except.ok _cluster =>
            match oc.mongo_addIPWhitelist with
            | Except.error e => mongoStepFail t e
            | Except.ok _ =>
                match oc.mongo_createDatabaseUser with
                | Except.error e => mongoStepFail t e
                | Except.ok _ =>
                    match oc.mongo_getCluster with
                    | Except.error e => mongoStepFail t e
                    | Except.ok clusterInfo =>
                        ([Write.step "mongodb" (inProgressPatch t) t,
                          Write.fields (FieldsWrite.setMongoConnectionString
                            (generateConnectionString clusterInfo "app_user"
                              oc.mongo_dbPassword (databaseNameOf req.projectName))),
                          Write.step "mongodb" (completedPatch (t + 1)) (t + 1)],
                         t + 2, true)

/-- The error path shared by the catch block of the Clerk step. -/
def clerkStepFail (t : Nat) (e : String) : List Write × Nat × Bool :=
  ([Write.step "clerk" (inProgressPatch t) t,
    Write.step "clerk" (errorPatch (t + 1) e) (t + 1),
    Write.fields (FieldsWrite.failWith e "clerk" (t + 2))],
   t + 3, false)

/-- Step 4: create the Clerk application and record its API keys. -/
def clerkStepWrites (keys : ApiKeys) (oc : RouteOutcomes) (t : Nat) :
    List Write × Nat × Bool :=
  if keys.clerk = "" then
    clerkStepFail t "Missing CLERK_API_KEY env variable"
  else
    match oc.clerk_createApplication with
    | Except.error e => clerkStepFail t e
    | Except.ok clerkApp =>
        match oc.clerk_setupDefaultConfiguration with
        | Except.error e => clerkStepFail t e
        | Except.ok _ =>
            match oc.clerk_createAPIKeys with
            | Except.error e => clerkStepFail t e
            | Except.ok keyPair =>
                ([Write.step "clerk" (inProgressPatch t) t,
                  Write.fields (FieldsWrite.setClerkKeys clerkApp.id
                    keyPair.1 keyPair.2),
                  Write.step "clerk" (completedPatch (t + 1)) (t + 1)],
                 t + 2, true)

/-- Step 5: set up the Google Cloud project.  Its catch block records
the step error but neither sets the record status to failed nor
aborts, so the block always continues. -/
def googleStepWrites (env : RouteEnv) (oc : RouteOutcomes) (t : Nat) :
    List Write × Nat :=
  if env.GOOGLE_CLIENT_EMAIL = "" ∨ env.GOOGLE_PRIVATE_KEY = "" then
    ([Write.step "google" (inProgressPatch t) t,
      Write.step "google"
        (errorPatch (t + 1)
          "Missing Google service account credentials (GOOGLE_CLIENT_EMAIL, GOOGLE_PRIVATE_KEY)")
        (t + 1)],
     t + 2)
  else
    match oc.google_createProject with
    | Except.error e =>
        ([Write.step "google" (inProgressPatch t) t,
          Write.step "google" (errorPatch (t + 1) e) (t + 1)],
         t + 2)
    | Except.ok _ =>
        ([Write.step "google" (inProgressPatch t) t,
          Write.fields (FieldsWrite.setGoogleProjectId oc.google_projectId),
          Write.step "google" (completedPatch (t + 1)) (t + 1)],
         t + 2)

/-- `initiateDeployment`: runs the five step blocks in order, aborting
after any of the first four fails.  `Except.error` models the one
exception that escapes the function: the GITHUB_USERNAME guard thrown
before the first step.  Every other failure is caught at its step
boundary, so once the guard passes the function returns `Except.ok`
with the full write trace. -/
def initiateDeployment (env : RouteEnv) (keys : ApiKeys) (req : CreateAppRequest)
    (oc : RouteOutcomes) : Except String (List Write) :=
  if env.GITHUB_USERNAME = "" then
    Except.error "GITHUB_USERNAME env variable is required"
  else
    match githubStepWrites oc 0 with
    | (g, _, false) => Except.ok g
    | (g, t1, true) =>
        match vercelStepWrites keys oc t1 with
        | (v, _, false) => Except.ok (g ++ v)
        | (v, t2, true) =>
            match mongoStepWrites env keys req oc t2 with
            | (m, _, false) => Except.ok (g ++ v ++ m)
            | (m, t3, true) =>
                match clerkStepWrites keys oc t3 with
                | (c, _, false) => Except.ok (g ++ v ++ m ++ c)
                | (c, t4, true) =>
                    match googleStepWrites env oc t4 with
                    | (gg, t5) =>
                        Except.ok (g ++ v ++ m ++ c ++ gg ++
                          [Write.fields (FieldsWrite.complete t5)])

/-- The final deployment record of a run: the write trace applied to
the record created at submission time ([] if the GITHUB_USERNAME guard
threw before any update). -/
def finalRecord (req : CreateAppRequest) (deploymentId : String) (env : RouteEnv)
    (keys : ApiKeys) (oc : RouteOutcomes) : DeploymentRecord :=
  applyTrace (createDeploymentRecord req deploymentId)
    (((initiateDeployment env keys req oc).toOption).getD [])

/-- Look up a step of the record by id (first match, as in the MongoDB
positional filter). -/
def findStep (r : DeploymentRecord) (sid : String) : Option Step :=
  r.steps.find? (fun s => s.id = sid)

/-- The stored status of a step: `none` if no step has that id,
`some st` with the stored (possibly absent) status otherwise. -/
def stepStatus (r : DeploymentRecord) (sid : String) : Option (Option StepStatus) :=
  (findStep r sid).map Step.status

/-! ## The POST handler of the create-app route -/

/-- The JSON responses the POST handler can produce:  the 400
missing-required-fields response (a constant message naming no
fields), the 500 missing-API-keys response (curiously, this one does
enumerate the missing keys), the success response
`{message, deploymentId, status: 'started'}`, and the catch-all 500
internal-server-error response. -/
inductive ApiResponse
  | missingFields
  | missingApiKeys (keys : List String)
  | started (deploymentId : String)
  | internalError
deriving DecidableEq, Repr

/-- `Object.entries(apiKeys)` in declaration order. -/
def apiKeyEntries (keys : ApiKeys) : List (String × String) :=
  [("github", keys.github),
   ("vercel", keys.vercel),
   ("mongodb", keys.mongodb),
   ("clerk", keys.clerk),
   ("googleCloud", keys.googleCloud)]

/-- The `missingKeys` computation of the handler: the names of every
entry whose value is falsy (empty). -/
def missingKeys (keys : ApiKeys) : List String :=
  ((apiKeyEntries keys).filter (fun e => e.2 = "")).map (fun e => e.1)

/-- The POST handler.  `keys5` is the five-key portion of the
environment; `env` the remaining variables; `oc` the provider-call
oracle; `deploymentId` the random id minted by
`createDeploymentRecord`.  The second component is the write trace of
the orchestration run, or `none` when validation rejected the request
before the orchestration (and hence before any provider) was invoked.
Note the source `await`s `initiateDeployment` before responding, so
the response is computed from the finished run: a normal return yields
the started response, a thrown error is caught and yields the 500
internal-error response. -/
def POST (body : CreateAppRequest) (keys5 : ApiKeys) (env : RouteEnv)
    (oc : RouteOutcomes) (deploymentId : String) :
    ApiResponse × Option (List Write) :=
  if body.projectName = "" ∨ body.description = "" ∨ body.template = "" ∨
      body.githubRepo = "" ∨ body.targetCluster = "" then
    (ApiResponse.missingFields, none)
  else
    if missingKeys keys5 ≠ [] then
      (ApiResponse.missingApiKeys (missingKeys keys5), none)
    else
      match initiateDeployment env keys5 body oc with
      | Except.ok tr => (ApiResponse.started deploymentId, some tr)
      | Except.error _ => (ApiResponse.internalError, some [])

/-- Following the wording of the spec (not the source): the set of
required configuration fields of a submission that are missing, as a
list of field names.  Used to compare the handler's validation
response against the spec's promise that it enumerates every missing
field. -/
def missingRequiredFieldsSpec (body : CreateAppRequest) : List String :=
  (([("projectName", body.projectName),
     ("description", body.description),
     ("template", body.template),
     ("githubRepo", body.githubRepo),
     ("targetCluster", body.targetCluster)].filter
    (fun e => e.2 = "")).map (fun e => e.1))

/-! ## The DeploymentOrchestrator class
(src/lib/services/deployment-orchestrator.ts)

Unlike the route above, this orchestrator wraps all its steps in one
try/catch: the catch pushes a synthetic "deployment" progress entry
and rethrows the error to the caller. -/

/-- Result of `VercelService.createDeployment` / `waitForDeployment`
as consumed by the orchestrator. -/
structure VercelDeployment where
  id : String
  url : String
  readyState : ReadyState
deriving DecidableEq, Repr

/-- The optional `mongodb` credential bundle of `DeploymentConfig`. -/
structure OrchMongoConfig where
  apiKey : String
  privateKey : String
  orgId : String
  region : String
  tier : String
deriving DecidableEq, Repr

/-- `DeploymentConfig` of the orchestrator.  `clerk` holds the
optional bundle's secret key; `mongodb` the optional database
bundle. -/
structure OrchConfig where
  projectName : String
  description : String
  template : String
  githubToken : String
  githubUsername : String
  githubPrivate : Bool
  vercelToken : String
  vercelTeamId : Option String
  mongodb : Option OrchMongoConfig
  clerk : Option String
  domain : Option String
deriving DecidableEq, Repr

/-- Oracle outcomes of the provider calls made by
`deployApplication`.  `securePassword` stands for the
`Math.random()`-derived password of `generateSecurePassword`. -/
structure OrchOutcomes where
  createRepository : Except String GitHubRepo
  createInitialFiles : Except String Unit
  mongo_createProject : Except String MongoDBProject
  mongo_createCluster : Except String MongoDBCluster
  mongo_waitForCluster : Except String MongoDBCluster
  mongo_createDatabaseUser : Except String Unit
  mongo_addIPWhitelist : Except String Unit
  securePassword : String
  clerk_createApplication : Except String ClerkApp
  clerk_createAPIKeys : Except String (String × String)
  clerk_setupDefaultConfiguration : Except String Unit
  vercel_createProject : Except String VercelProject
  vercel_createDeployment : Except String VercelDeployment
  vercel_waitForDeployment : Except String VercelDeployment
  vercel_addDomain : Except String Unit
  clerk_addCustomDomain : Except String Unit

/-- One entry of the orchestrator's `progress` array
(`DeploymentProgress`); `details` is never set on the paths modelled
here and is omitted. -/
structure ProgressEntry where
  step : String
  status : StepStatus
  message : String
  timestamp : Nat
deriving DecidableEq, Repr

/-- `DeploymentResult` of the orchestrator, with the nested
single-field objects flattened: `database` is the optional
`(connectionString, clusterId)` pair, `authentication` the optional
`(applicationId, publishableKey, secretKey)` triple.  The
`progress` snapshot field is carried separately as the second
component of `deployApplication`. -/
structure OrchResult where
  success : Bool
  projectId : String
  githubUrl : String
  githubCloneUrl : String
  vercelUrl : String
  vercelProjectId : String
  vercelDeploymentId : String
  database : Option (String × String)
  authentication : Option (String × String × String)
  environmentVariables : List (String × String)
deriving DecidableEq, Repr

/-- `updateProgress`: append one entry to the progress array.  The
`new Date()` timestamp is modelled as the base clock plus the number
of entries already pushed, keeping timestamps strictly increasing. -/
def pushProgress (prog : List ProgressEntry) (step : String)
    (status : StepStatus) (message : String) (t0 : Nat) : List ProgressEntry :=
  prog ++ [⟨step, status, message, t0 + prog.length⟩]

/-- `generateEnvironmentVariables` of the orchestrator. -/
def generateEnvironmentVariables (auth : Option (String × String × String))
    (dbConn : Option String) (domain : Option String) : List (String × String) :=
  (match auth with
   | some a =>
      [("NEXT_PUBLIC_CLERK_PUBLISHABLE_KEY", a.2.1), ("CLERK_SECRET_KEY", a.2.2)]
   | none => []) ++
  (match dbConn with
   | some c => [("MONGODB_URI", c)]
   | none => []) ++
  (match domain with
   | some d => [("NEXT_PUBLIC_DOMAIN", d)]
   | none => [])

namespace DeploymentOrchestrator

/-- `createMongoDBCluster` (plus its surrounding progress updates in
`deployApplication`): skipped entirely when no mongodb bundle is
configured.  Note that here, unlike in the route, a `waitForCluster`
failure propagates and fails the whole deployment. -/
def mongoStage (cfg : OrchConfig) (oc : OrchOutcomes)
    (prog : List ProgressEntry) (t0 : Nat) :
    Except String (Option (String × String)) × List ProgressEntry :=
  match cfg.mongodb with
  | none => (Except.ok none, prog)
  | some _mc =>
      let p := pushProgress prog "mongodb-setup" StepStatus.inProgress
        "Creating MongoDB cluster..." t0
      match oc.mongo_createProject with
      | Except.error e => (Except.error e, p)
      | Except.ok _project =>
          match oc.mongo_createCluster with
          | Except.error e => (Except.error e, p)
          | Except.ok cluster =>
              match oc.mongo_waitForCluster with
              | Except.error e => (Except.error e, p)
              | Except.ok readyCluster =>
                  match oc.mongo_createDatabaseUser with
                  | Except.error e => (Except.error e, p)
                  | Except.ok _ =>
                      match oc.mongo_addIPWhitelist with
                      | Except.error e => (Except.error e, p)
                      | Except.ok _ =>
                          let connectionString := generateConnectionString
                            readyCluster (cfg.projectName ++ "_user")
                            oc.securePassword cfg.projectName
                          (Except.ok (some (connectionString, cluster.id)),
                           pushProgress p "mongodb-setup" StepStatus.completed
                             "MongoDB cluster created successfully" t0)

/-- `createClerkApplication` (plus its surrounding progress updates):
skipped when no clerk bundle is configured. -/
def clerkStage (cfg : OrchConfig) (oc : OrchOutcomes)
    (prog : List ProgressEntry) (t0 : Nat) :
    Except String (Option (String × String × String)) × List ProgressEntry :=
  match cfg.clerk with
  | none => (Except.ok none, prog)
  | some _secret =>
      let p := pushProgress prog "clerk-setup" StepStatus.inProgress
        "Setting up Clerk authentication..." t0
      match oc.clerk_createApplication with
      | Except.error e => (Except.error e, p)
      | Except.ok app =>
          match oc.clerk_createAPIKeys with
          | Except.error e => (Except.error e, p)
          | Except.ok apiKeys =>
              match oc.clerk_setupDefaultConfiguration with
              | Except.error e => (Except.error e, p)
              | Except.ok _ =>
                  (Except.ok (some (app.id, apiKeys.1, apiKeys.2)),
                   pushProgress p "clerk-setup" StepStatus.completed
                     "Clerk authentication configured successfully" t0)

/-- `deployToVercel`: create a deployment, then wait for it to
complete; the awaited final deployment is the result. -/
def deployToVercel (oc : OrchOutcomes) : Except String VercelDeployment :=
  match oc.vercel_createDeployment with
  | Except.error e => Except.error e
  | Except.ok _deployment => oc.vercel_waitForDeployment

/-- `setupCustomDomain` (plus its surrounding progress updates):
skipped when no domain is configured. -/
def domainStage (cfg : OrchConfig) (oc : OrchOutcomes)
    (auth : Option (String × String × String))
    (prog : List ProgressEntry) (t0 : Nat) :
    Except String Unit × List ProgressEntry :=
  match cfg.domain with
  | none => (Except.ok (), prog)
  | some _d =>
      let p := pushProgress prog "domain-setup" StepStatus.inProgress
        "Configuring custom domain..." t0
      match oc.vercel_addDomain with
      | Except.error e => (Except.error e, p)
      | Except.ok _ =>
          match auth, cfg.clerk with
          | some _, some _ =>
              match oc.clerk_addCustomDomain with
              | Except.error e => (Except.error e, p)
              | Except.ok _ =>
                  (Except.ok (),
                   pushProgress p "domain-setup" StepStatus.completed
                     "Custom domain configured successfully" t0)
          | _, _ =>
              (Except.ok (),
               pushProgress p "domain-setup" StepStatus.completed
                 "Custom domain configured successfully" t0)

/-- The try block of `deployApplication`: the sequential stages,
each error propagating to the single outer catch. -/
def deployApplicationTry (cfg : OrchConfig) (oc : OrchOutcomes) (t0 : Nat) :
    Except String OrchResult × List ProgressEntry :=
  let p1 := pushProgress [] "github-repo" StepStatus.inProgress
    "Creating GitHub repository..." t0
  match oc.createRepository with
  | Except.error e => (Except.error e, p1)
  | Except.ok repo =>
      let p2 := pushProgress (pushProgress p1 "github-repo" StepStatus.completed
        "GitHub repository created successfully" t0) "template-files"
        StepStatus.inProgress "Generating template files..." t0
      match oc.createInitialFiles with
      | Except.error e => (Except.error e, p2)
      | Except.ok _ =>
          let p3 := pushProgress p2 "template-files" StepStatus.completed
            "Template files generated successfully" t0
          match mongoStage cfg oc p3 t0 with
          | (Except.error e, p) => (Except.error e, p)
          | (Except.ok database, p4) =>
              match clerkStage cfg oc p4 t0 with
              | (Except.error e, p) => (Except.error e, p)
              | (Except.ok auth, p5) =>
                  let envVars := generateEnvironmentVariables auth
                    (database.map Prod.fst) cfg.domain
                  let p6 := pushProgress p5 "vercel-project" StepStatus.inProgress
                    "Creating Vercel project..." t0
                  match oc.vercel_createProject with
                  | Except.error e => (Except.error e, p6)
                  | Except.ok project =>
                      let p7 := pushProgress (pushProgress p6 "vercel-project"
                        StepStatus.completed "Vercel project created successfully" t0)
                        "vercel-deployment" StepStatus.inProgress
                        "Deploying to Vercel..." t0
                      match deployToVercel oc with
                      | Except.error e => (Except.error e, p7)
                      | Except.ok deployment =>
                          let p8 := pushProgress p7 "vercel-deployment"
                            StepStatus.completed "Application deployed successfully" t0
                          match domainStage cfg oc auth p8 t0 with
                          | (Except.error e, p) => (Except.error e, p)
                          | (Except.ok _, p9) =>
                              let res : OrchResult :=
                                { success := true
                                  projectId := cfg.projectName ++ "-" ++ toString t0
                                  githubUrl := repo.htmlUrl
                                  githubCloneUrl := repo.cloneUrl
                                  vercelUrl := deployment.url
                                  vercelProjectId := project.id
                                  vercelDeploymentId := deployment.id
                                  database := database
                                  authentication := auth
                                  environmentVariables := envVars }
                              (Except.ok res,
                               pushProgress p9 "deployment" StepStatus.completed
                                 "Deployment completed successfully! 🎉" t0)

/-- `deployApplication`: the try block plus the single catch that
pushes a synthetic "deployment" error entry and rethrows; the
second component is the orchestrator's final progress array. -/
def deployApplication (cfg : OrchConfig) (oc : OrchOutcomes) (t0 : Nat) :
    Except String OrchResult × List ProgressEntry :=
  match deployApplicationTry cfg oc t0 with
  | (Except.ok res, prog) => (Except.ok res, prog)
  | (Except.error e, prog) =>
      (Except.error e,
       pushProgress prog "deployment" StepStatus.error
         ("Deployment failed: " ++ e) t0)

end DeploymentOrchestrator

/-! ## The deployment event bus (src/lib/deployment-events.ts) -/

/-- `DeploymentEvent` of the event bus.  The `data` payload is
abstracted to a string. -/
structure DeploymentEvent where
  deploymentId : String
  stepId : String
  status : String
  message : Option String
  data : Option String
deriving DecidableEq, Repr

/-- The subscription state of the `DeploymentEmitter`: the
`Map<string, Set<Listener>>` flattened to the list of
(deploymentId, listener) pairs in insertion order.  Listener
identity (function reference equality in JS) is modelled by `Nat`. -/
abbrev EmitterState : Type := List (String × Nat)

/-- `DeploymentEmitter.on`: insert the pair unless the Set already
holds that listener for that deployment id. -/
def emitterOn (deploymentId : String) (l : Nat) (subs : EmitterState) :
    EmitterState :=
  if (deploymentId, l) ∈ subs then subs else subs ++ [(deploymentId, l)]

/-- `DeploymentEmitter.off`: remove the pair if present. -/
def emitterOff (deploymentId : String) (l : Nat) (subs : EmitterState) :
    EmitterState :=
  subs.filter (fun p => p ≠ (deploymentId, l))

/-- A subscribe/unsubscribe operation on the bus. -/
inductive EmitterOp
  | on (deploymentId : String) (l : Nat)
  | off (deploymentId : String) (l : Nat)
deriving DecidableEq, Repr

/-- Apply one subscribe/unsubscribe operation. -/
def applyEmitterOp (subs : EmitterState) : EmitterOp → EmitterState
  | EmitterOp.on d l => emitterOn d l subs
  | EmitterOp.off d l => emitterOff d l subs

/-- Run a sequence of subscribe/unsubscribe operations from the
freshly constructed (empty) emitter. -/
def runEmitterOps (ops : List EmitterOp) : EmitterState :=
  ops.foldl applyEmitterOp []

/-- `DeploymentEmitter.emit`: deliver the event to each listener of
the Set registered for the event's deployment id, in insertion order;
the result is the list of (listener, delivered event) pairs. -/
def emit (subs : EmitterState) (e : DeploymentEvent) :
    List (Nat × DeploymentEvent) :=
  (subs.filter (fun p => p.1 = e.deploymentId)).map (fun p => (p.2, e))

/-! ## Concrete sample inputs used by witnesses and counterexamples -/

/-- A well-formed submission body. -/
def sampleRequest : CreateAppRequest :=
  { projectName := "My App"
    description := "A demo app"
    template := "nextjs-shadcn"
    githubRepo := "my-app"
    domain := none
    targetCluster := "default"
    features := [] }

/-- An environment with every variable set. -/
def sampleEnv : RouteEnv :=
  { GITHUB_USERNAME := "octocat"
    VERCEL_TEAM_ID := none
    MONGODB_PRIVATE_KEY := "priv"
    MONGODB_ORG_ID := "org"
    GOOGLE_CLIENT_EMAIL := "svc@example.com"
    GOOGLE_PRIVATE_KEY := "pk" }

/-- All five API keys present. -/
def sampleKeys : ApiKeys :=
  { github := "ghp"
    vercel := "vt"
    mongodb := "mk"
    clerk := "ck"
    googleCloud := "gk" }

/-- A sample Atlas cluster as returned by `createCluster`/`getCluster`. -/
def sampleCluster : MongoDBCluster :=
  { id := "c1"
    name := "My-App-cluster"
    connectionStrings :=
      { standard := "mongodb://cluster0.mongodb.net"
        standardSrv := "mongodb+srv://<username>:<password>@cluster0.mongodb.net" }
    stateName := ClusterState.CREATING }

/-- Every provider call succeeds. -/
def okOutcomes : RouteOutcomes :=
  { github_createRepository := Except.ok
      { name := "my-app"
        htmlUrl := "https://github.com/octocat/my-app"
        cloneUrl := "https://github.com/octocat/my-app.git" }
    vercel_createProject := Except.ok
      { id := "prj1", productionUrl := some "my-app.vercel.app" }
    vercel_getProjectDeployments := Except.ok ["dep1"]
    vercel_waitForDeployment := VercelWaitResult.done ReadyState.READY 0
    mongo_createProject := Except.ok { id := "p1", name := "My App", orgId := "org" }
    mongo_createCluster := Except.ok sampleCluster
    mongo_waitForCluster := MongoWaitResult.ready 0
    mongo_addIPWhitelist := Except.ok ()
    mongo_createDatabaseUser := Except.ok ()
    mongo_getCluster := Except.ok sampleCluster
    mongo_dbPassword := "pw123"
    clerk_createApplication := Except.ok { id := "app1" }
    clerk_setupDefaultConfiguration := Except.ok ()
    clerk_createAPIKeys := Except.ok ("pk_test", "sk_test")
    google_createProject := Except.ok ()
    google_projectId := "my-app-ab12" }

/-- Like `okOutcomes`, but the GitHub repository creation throws. -/
def ghFailOutcomes : RouteOutcomes :=
  { okOutcomes with github_createRepository := Except.error "Error: repo exists" }

/-! ## Derived observations used by the verified properties -/

/-- The stored `error` field of a step. -/
def stepError (r : DeploymentRecord) (sid : String) : Option (Option String) :=
  (findStep r sid).map Step.error

/-- The sequence of statuses that the run writes (via `updateStep`)
into the step with id `sid`, in write order. -/
def stepStatusWrites (sid : String) (tr : List Write) : List (Option StepStatus) :=
  tr.filterMap fun w =>
    match w with
    | Write.step s p _ => if s = sid then some p.status else none
    | Write.fields _ => none

/-- The status-write sequences a single step may receive in one run:
nothing, in-progress only, or in-progress followed by exactly one
terminal status.  Membership implies that a step status never
regresses and that nothing is written after a terminal status. -/
def allowedStatusSequences : List (List (Option StepStatus)) :=
  [[],
   [some StepStatus.inProgress],
   [some StepStatus.inProgress, some StepStatus.completed],
   [some StepStatus.inProgress, some StepStatus.error]]

/-- A cluster trace that becomes (and stays) ready at 10 ms. -/
def rampCluster : Nat → ClusterState :=
  fun t => if t < 10 then ClusterState.CREATING else ClusterState.IDLE

/-- A cluster trace that never leaves CREATING. -/
def stuckCluster : Nat → ClusterState :=
  fun _ => ClusterState.CREATING

/-- Scenario C of the spec: every provider call succeeds but the
cluster polling run (30 s interval, 30 min deadline, as hard-coded in
the route) times out. -/
def scenarioCOutcomes : RouteOutcomes :=
  { okOutcomes with
    mongo_waitForCluster :=
      MongoDBService.waitForCluster stuckCluster 1800000 30000 (by omega) }

/-- `sampleEnv` with the GITHUB_USERNAME variable unset. -/
def envNoUsername : RouteEnv :=
  { sampleEnv with GITHUB_USERNAME := "" }

/-- `sampleRequest` with the project name missing. -/
def bodyMissingName : CreateAppRequest :=
  { sampleRequest with projectName := "" }

/-- `sampleRequest` with the description missing. -/
def bodyMissingDescription : CreateAppRequest :=
  { sampleRequest with description := "" }

/-- A minimal orchestrator configuration: no optional bundle. -/
def minimalOrchConfig : OrchConfig :=
  { projectName := "my-app"
    description := "A demo app"
    template := "nextjs-shadcn"
    githubToken := "ghp"
    githubUsername := "octocat"
    githubPrivate := true
    vercelToken := "vt"
    vercelTeamId := none
    mongodb := none
    clerk := none
    domain := none }

/-- Orchestrator oracle in which every call succeeds. -/
def orchOkOutcomes : OrchOutcomes :=
  { createRepository := Except.ok
      { name := "my-app"
        htmlUrl := "https://github.com/octocat/my-app"
        cloneUrl := "https://github.com/octocat/my-app.git" }
    createInitialFiles := Except.ok ()
    mongo_createProject := Except.ok { id := "p1", name := "my-app-db", orgId := "org" }
    mongo_createCluster := Except.ok sampleCluster
    mongo_waitForCluster := Except.ok { sampleCluster with stateName := ClusterState.IDLE }
    mongo_createDatabaseUser := Except.ok ()
    mongo_addIPWhitelist := Except.ok ()
    securePassword := "S3cure"
    clerk_createApplication := Except.ok { id := "app1" }
    clerk_createAPIKeys := Except.ok ("pk_test", "sk_test")
    clerk_setupDefaultConfiguration := Except.ok ()
    vercel_createProject := Except.ok { id := "prj1", productionUrl := some "my-app.vercel.app" }
    vercel_createDeployment := Except.ok
      { id := "dep1", url := "my-app.vercel.app", readyState := ReadyState.BUILDING }
    vercel_waitForDeployment := Except.ok
      { id := "dep1", url := "my-app.vercel.app", readyState := ReadyState.READY }
    vercel_addDomain := Except.ok ()
    clerk_addCustomDomain := Except.ok () }

/-- Orchestrator oracle in which the repository creation throws. -/
def orchGHFail : OrchOutcomes :=
  { orchOkOutcomes with createRepository := Except.error "boom" }

/-- A sample bus event. -/
def sampleEvent : DeploymentEvent :=
  { deploymentId := "a"
    stepId := "github"
    status := "completed"
    message := none
    data := none }

/-! ### Unfolding lemmas for the polling loops -/

namespace MongoDBService

theorem waitForClusterAux_timeout_of_ge {s maxWaitTime pollInterval t}
    (hI : 0 < pollInterval) (h : ¬ t < maxWaitTime) :
    waitForClusterAux s maxWaitTime pollInterval hI t = MongoWaitResult.timeout := by
  rw [waitForClusterAux]
  simp [h]

theorem waitForClusterAux_idle {s maxWaitTime pollInterval t}
    (hI : 0 < pollInterval) (h : t < maxWaitTime) (hs : s t = ClusterState.IDLE) :
    waitForClusterAux s maxWaitTime pollInterval hI t = MongoWaitResult.ready t := by
  rw [waitForClusterAux]
  simp [h, hs]

theorem waitForClusterAux_deleted {s maxWaitTime pollInterval t}
    (hI : 0 < pollInterval) (h : t < maxWaitTime)
    (hs1 : s t ≠ ClusterState.IDLE) (hs2 : s t = ClusterState.DELETED) :
    waitForClusterAux s maxWaitTime pollInterval hI t = MongoWaitResult.deleted := by
  rw [waitForClusterAux]
  simp [h, hs1, hs2]

theorem waitForClusterAux_next {s maxWaitTime pollInterval t}
    (hI : 0 < pollInterval) (h : t < maxWaitTime)
    (hs1 : s t ≠ ClusterState.IDLE) (hs2 : s t ≠ ClusterState.DELETED) :
    waitForClusterAux s maxWaitTime pollInterval hI t =
      waitForClusterAux s maxWaitTime pollInterval hI (t + pollInterval) := by
  rw [waitForClusterAux]
  simp [h, hs1, hs2]

end MongoDBService

namespace VercelService

theorem waitForDeploymentAux_timeout_of_ge {s maxWaitTime pollInterval t}
    (hI : 0 < pollInterval) (h : ¬ t < maxWaitTime) :
    waitForDeploymentAux s maxWaitTime pollInterval hI t = VercelWaitResult.timeout := by
  rw [waitForDeploymentAux]
  simp [h]

theorem waitForDeploymentAux_done {s maxWaitTime pollInterval t}
    (hI : 0 < pollInterval) (h : t < maxWaitTime)
    (hs : s t = ReadyState.READY ∨ s t = ReadyState.ERROR) :
    waitForDeploymentAux s maxWaitTime pollInterval hI t =
      VercelWaitResult.done (s t) t := by
  rw [waitForDeploymentAux]
  simp [h, hs]

theorem waitForDeploymentAux_next {s maxWaitTime pollInterval t}
    (hI : 0 < pollInterval) (h : t < maxWaitTime)
    (hs : ¬ (s t = ReadyState.READY ∨ s t = ReadyState.ERROR)) :
    waitForDeploymentAux s maxWaitTime pollInterval hI t =
      waitForDeploymentAux s maxWaitTime pollInterval hI (t + pollInterval) := by
  rw [waitForDeploymentAux]
  simp [h, hs]

end VercelService

/-! ### Outcome characterizations of the polling loops

The loop observes the resource state at the times t, t+i, t+2i, ...
(i the polling interval) that are strictly below the deadline, and its
outcome is determined by the first observed terminal state, if any. -/

namespace MongoDBService

theorem waitForClusterAux_ready_iff_aux (s : Nat → ClusterState)
    (maxWaitTime pollInterval : Nat) (hI : 0 < pollInterval) :
    ∀ n t, maxWaitTime - t ≤ n →
      ((∃ u, waitForClusterAux s maxWaitTime pollInterval hI t = MongoWaitResult.ready u) ↔
        ∃ k, t + k * pollInterval < maxWaitTime ∧
          s (t + k * pollInterval) = ClusterState.IDLE ∧
          ∀ j < k, s (t + j * pollInterval) ≠ ClusterState.DELETED) := by
  intro n
  induction n with
  | zero =>
      intro t ht
      have hge : ¬ t < maxWaitTime := by omega
      rw [waitForClusterAux_timeout_of_ge hI hge]
      constructor
      · rintro ⟨u, hu⟩
        exact absurd hu (by simp)
      · rintro ⟨k, hk, -, -⟩
        exact absurd hk (by omega)
  | succ n ih =>
      intro t ht
      by_cases h : t < maxWaitTime
      · by_cases hIdle : s t = ClusterState.IDLE
        · rw [waitForClusterAux_idle hI h hIdle]
          constructor
          · intro _
            refine ⟨0, by simpa using h, by simpa using hIdle, ?_⟩
            intro j hj
            exact absurd hj (Nat.not_lt_zero j)
          · intro _
            exact ⟨t, rfl⟩
        · by_cases hDel : s t = ClusterState.DELETED
          · rw [waitForClusterAux_deleted hI h hIdle hDel]
            constructor
            · rintro ⟨u, hu⟩
              exact absurd hu (by simp)
            · rintro ⟨k, hk, hkIdle, hnd⟩
              rcases Nat.eq_zero_or_pos k with hk0 | hkpos
              · subst hk0
                simp only [Nat.zero_mul, Nat.add_zero] at hkIdle
                exact absurd hkIdle hIdle
              · have := hnd 0 hkpos
                simp only [Nat.zero_mul, Nat.add_zero] at this
                exact absurd hDel this
          · rw [waitForClusterAux_next hI h hIdle hDel]
            have harith : ∀ m : Nat,
                t + (m + 1) * pollInterval = (t + pollInterval) + m * pollInterval := by
              intro m
              rw [Nat.succ_mul]
              omega
            have ihs := ih (t + pollInterval) (by omega)
            rw [ihs]
            constructor
            · rintro ⟨k, hk, hkIdle, hnd⟩
              refine ⟨k + 1, ?_, ?_, ?_⟩
              · rw [harith]; exact hk
              · rw [harith]; exact hkIdle
              · intro j hj
                match j with
                | 0 =>
                    simpa using hDel
                | j' + 1 =>
                    rw [harith]
                    exact hnd j' (by omega)
            · rintro ⟨k, hk, hkIdle, hnd⟩
              match k with
              | 0 =>
                  simp only [Nat.zero_mul, Nat.add_zero] at hkIdle
                  exact absurd hkIdle hIdle
              | k' + 1 =>
                  rw [harith] at hk hkIdle
                  refine ⟨k', hk, hkIdle, ?_⟩
                  intro j hj
                  rw [← harith]
                  exact hnd (j + 1) (by omega)
      · rw [waitForClusterAux_timeout_of_ge hI h]
        constructor
        · rintro ⟨u, hu⟩
          exact absurd hu (by simp)
        · rintro ⟨k, hk, -, -⟩
          exact absurd hk (by omega)

/-- `waitForCluster` returns the cluster exactly when some poll time
`k * pollInterval` strictly below the deadline observes state IDLE and
no earlier poll observes state DELETED. -/
theorem waitForCluster_ready_iff (s : Nat → ClusterState)
    (maxWaitTime pollInterval : Nat) (hI : 0 < pollInterval) :
    (∃ u, waitForCluster s maxWaitTime pollInterval hI = MongoWaitResult.ready u) ↔
      ∃ k, k * pollInterval < maxWaitTime ∧
        s (k * pollInterval) = ClusterState.IDLE ∧
        ∀ j < k, s (j * pollInterval) ≠ ClusterState.DELETED := by
  have := waitForClusterAux_ready_iff_aux s maxWaitTime pollInterval hI
    (maxWaitTime - 0) 0 (le_refl _)
  simpa [waitForCluster] using this

theorem waitForClusterAux_timeout_iff_aux (s : Nat → ClusterState)
    (maxWaitTime pollInterval : Nat) (hI : 0 < pollInterval) :
    ∀ n t, maxWaitTime - t ≤ n →
      (waitForClusterAux s maxWaitTime pollInterval hI t = MongoWaitResult.timeout ↔
        ∀ k, t + k * pollInterval < maxWaitTime →
          s (t + k * pollInterval) ≠ ClusterState.IDLE ∧
          s (t + k * pollInterval) ≠ ClusterState.DELETED) := by
  intro n
  induction n with
  | zero =>
      intro t ht
      have hge : ¬ t < maxWaitTime := by omega
      rw [waitForClusterAux_timeout_of_ge hI hge]
      constructor
      · intro _ k hk
        exact absurd hk (by omega)
      · intro _
        rfl
  | succ n ih =>
      intro t ht
      by_cases h : t < maxWaitTime
      · by_cases hIdle : s t = ClusterState.IDLE
        · rw [waitForClusterAux_idle hI h hIdle]
          constructor
          · intro hu
            exact absurd hu (by simp)
          · intro hall
            have := (hall 0 (by simpa using h)).1
            simp only [Nat.zero_mul, Nat.add_zero] at this
            exact absurd hIdle this
        · by_cases hDel : s t = ClusterState.DELETED
          · rw [waitForClusterAux_deleted hI h hIdle hDel]
            constructor
            · intro hu
              exact absurd hu (by simp)
            · intro hall
              have := (hall 0 (by simpa using h)).2
              simp only [Nat.zero_mul, Nat.add_zero] at this
              exact absurd hDel this
          · rw [waitForClusterAux_next hI h hIdle hDel]
            have harith : ∀ m : Nat,
                t + (m + 1) * pollInterval = (t + pollInterval) + m * pollInterval := by
              intro m
              rw [Nat.succ_mul]
              omega
            have ihs := ih (t + pollInterval) (by omega)
            rw [ihs]
            constructor
            · intro hall k hk
              match k with
              | 0 =>
                  simp only [Nat.zero_mul, Nat.add_zero]
                  exact ⟨hIdle, hDel⟩
              | k' + 1 =>
                  rw [harith]
                  exact hall k' (by rw [← harith]; exact hk)
            · intro hall k hk
              rw [← harith]
              exact hall (k + 1) (by rw [harith]; exact hk)
      · rw [waitForClusterAux_timeout_of_ge hI h]
        constructor
        · intro _ k hk
          exact absurd hk (by omega)
        · intro _
          rfl

/-- `waitForCluster` throws the timeout error exactly when no poll
time strictly below the deadline observes a terminal state (IDLE or
DELETED). -/
theorem waitForCluster_timeout_iff (s : Nat → ClusterState)
    (maxWaitTime pollInterval : Nat) (hI : 0 < pollInterval) :
    (waitForCluster s maxWaitTime pollInterval hI = MongoWaitResult.timeout ↔
      ∀ k, k * pollInterval < maxWaitTime →
        s (k * pollInterval) ≠ ClusterState.IDLE ∧
        s (k * pollInterval) ≠ ClusterState.DELETED) := by
  have := waitForClusterAux_timeout_iff_aux s maxWaitTime pollInterval hI
    (maxWaitTime - 0) 0 (le_refl _)
  simpa [waitForCluster] using this

/-- If the first terminal state observed by the polls, strictly before
the deadline, is DELETED, then `waitForCluster` throws the
"Cluster was deleted" error. -/
theorem waitForCluster_deleted_of_first (s : Nat → ClusterState)
    (maxWaitTime pollInterval : Nat) (hI : 0 < pollInterval) (k : Nat)
    (hk : k * pollInterval < maxWaitTime)
    (hdel : s (k * pollInterval) = ClusterState.DELETED)
    (hfirst : ∀ j < k, s (j * pollInterval) ≠ ClusterState.IDLE ∧
      s (j * pollInterval) ≠ ClusterState.DELETED) :
    waitForCluster s maxWaitTime pollInterval hI = MongoWaitResult.deleted := by
  suffices hgen : ∀ k t, t + k * pollInterval < maxWaitTime →
      s (t + k * pollInterval) = ClusterState.DELETED →
      (∀ j < k, s (t + j * pollInterval) ≠ ClusterState.IDLE ∧
        s (t + j * pollInterval) ≠ ClusterState.DELETED) →
      waitForClusterAux s maxWaitTime pollInterval hI t = MongoWaitResult.deleted by
    have := hgen k 0 (by simpa using hk) (by simpa using hdel)
      (by simpa using hfirst)
    simpa [waitForCluster] using this
  intro k
  induction k with
  | zero =>
      intro t hk hdel _
      simp only [Nat.zero_mul, Nat.add_zero] at hk hdel
      have hne : s t ≠ ClusterState.IDLE := by
        rw [hdel]
        simp
      exact waitForClusterAux_deleted hI hk hne hdel
  | succ k' ih =>
      intro t hk hdel hfirst
      have harith : ∀ m : Nat,
          t + (m + 1) * pollInterval = (t + pollInterval) + m * pollInterval := by
        intro m
        rw [Nat.succ_mul]
        omega
      have h0 := hfirst 0 (Nat.succ_pos k')
      simp only [Nat.zero_mul, Nat.add_zero] at h0
      have ht : t < maxWaitTime := by
        have := hk
        rw [harith] at this
        omega
      rw [waitForClusterAux_next hI ht h0.1 h0.2]
      refine ih (t + pollInterval) ?_ ?_ ?_
      · rw [← harith]; exact hk
      · rw [← harith]; exact hdel
      · intro j hj
        rw [← harith]
        exact hfirst (j + 1) (by omega)

end MongoDBService

namespace VercelService

theorem waitForDeploymentAux_done_iff_aux (s : Nat → ReadyState)
    (maxWaitTime pollInterval : Nat) (hI : 0 < pollInterval) :
    ∀ n t, maxWaitTime - t ≤ n →
      ((∃ st u, waitForDeploymentAux s maxWaitTime pollInterval hI t =
          VercelWaitResult.done st u) ↔
        ∃ k, t + k * pollInterval < maxWaitTime ∧
          (s (t + k * pollInterval) = ReadyState.READY ∨
            s (t + k * pollInterval) = ReadyState.ERROR)) := by
  intro n
  induction n with
  | zero =>
      intro t ht
      have hge : ¬ t < maxWaitTime := by omega
      rw [waitForDeploymentAux_timeout_of_ge hI hge]
      constructor
      · rintro ⟨st, u, hu⟩
        exact absurd hu (by simp)
      · rintro ⟨k, hk, -⟩
        exact absurd hk (by omega)
  | succ n ih =>
      intro t ht
      by_cases h : t < maxWaitTime
      · by_cases hterm : s t = ReadyState.READY ∨ s t = ReadyState.ERROR
        · rw [waitForDeploymentAux_done hI h hterm]
          constructor
          · intro _
            exact ⟨0, by simpa using h, by simpa using hterm⟩
          · intro _
            exact ⟨s t, t, rfl⟩
        · rw [waitForDeploymentAux_next hI h hterm]
          have harith : ∀ m : Nat,
              t + (m + 1) * pollInterval = (t + pollInterval) + m * pollInterval := by
            intro m
            rw [Nat.succ_mul]
            omega
          have ihs := ih (t + pollInterval) (by omega)
          rw [ihs]
          constructor
          · rintro ⟨k, hk, hkt⟩
            exact ⟨k + 1, by rw [harith]; exact hk, by rw [harith]; exact hkt⟩
          · rintro ⟨k, hk, hkt⟩
            match k with
            | 0 =>
                simp only [Nat.zero_mul, Nat.add_zero] at hkt
                exact absurd hkt hterm
            | k' + 1 =>
                rw [harith] at hk hkt
                exact ⟨k', hk, hkt⟩
      · rw [waitForDeploymentAux_timeout_of_ge hI h]
        constructor
        · rintro ⟨st, u, hu⟩
          exact absurd hu (by simp)
        · rintro ⟨k, hk, -⟩
          exact absurd hk (by omega)

/-- `waitForDeployment` returns a deployment exactly when some poll
time strictly below the deadline observes readyState READY or ERROR;
the loop treats both as terminal and returns normally on either. -/
theorem waitForDeployment_done_iff (s : Nat → ReadyState)
    (maxWaitTime pollInterval : Nat) (hI : 0 < pollInterval) :
    (∃ st u, waitForDeployment s maxWaitTime pollInterval hI =
        VercelWaitResult.done st u) ↔
      ∃ k, k * pollInterval < maxWaitTime ∧
        (s (k * pollInterval) = ReadyState.READY ∨
          s (k * pollInterval) = ReadyState.ERROR) := by
  have := waitForDeploymentAux_done_iff_aux s maxWaitTime pollInterval hI
    (maxWaitTime - 0) 0 (le_refl _)
  simpa [waitForDeployment] using this

/-- `waitForDeployment` throws the timeout error exactly when no poll
time strictly below the deadline observes readyState READY or ERROR. -/
theorem waitForDeployment_timeout_iff (s : Nat → ReadyState)
    (maxWaitTime pollInterval : Nat) (hI : 0 < pollInterval) :
    (waitForDeployment s maxWaitTime pollInterval hI = VercelWaitResult.timeout ↔
      ∀ k, k * pollInterval < maxWaitTime →
        ¬ (s (k * pollInterval) = ReadyState.READY ∨
          s (k * pollInterval) = ReadyState.ERROR)) := by
  constructor
  · intro htm k hk hterm
    have hdone := (waitForDeployment_done_iff s maxWaitTime pollInterval hI).mpr
      ⟨k, hk, hterm⟩
    rcases hdone with ⟨st, u, hu⟩
    rw [htm] at hu
    exact absurd hu (by simp)
  · intro hall
    cases hres : waitForDeployment s maxWaitTime pollInterval hI with
    | done st u =>
        have := (waitForDeployment_done_iff s maxWaitTime pollInterval hI).mp
          ⟨st, u, hres⟩
        rcases this with ⟨k, hk, hterm⟩
        exact absurd hterm (hall k hk)
    | timeout => rfl

/-- If the first terminal readyState observed by the polls, strictly
before the deadline, is ERROR, then `waitForDeployment` still returns
the deployment normally (with readyState ERROR) instead of throwing. -/
theorem waitForDeployment_done_error_of_first (s : Nat → ReadyState)
    (maxWaitTime pollInterval : Nat) (hI : 0 < pollInterval) (k : Nat)
    (hk : k * pollInterval < maxWaitTime)
    (herr : s (k * pollInterval) = ReadyState.ERROR)
    (hfirst : ∀ j < k, ¬ (s (j * pollInterval) = ReadyState.READY ∨
      s (j * pollInterval) = ReadyState.ERROR)) :
    waitForDeployment s maxWaitTime pollInterval hI =
      VercelWaitResult.done ReadyState.ERROR (k * pollInterval) := by
  suffices hgen : ∀ k t, t + k * pollInterval < maxWaitTime →
      s (t + k * pollInterval) = ReadyState.ERROR →
      (∀ j < k, ¬ (s (t + j * pollInterval) = ReadyState.READY ∨
        s (t + j * pollInterval) = ReadyState.ERROR)) →
      waitForDeploymentAux s maxWaitTime pollInterval hI t =
        VercelWaitResult.done ReadyState.ERROR (t + k * pollInterval) by
    have := hgen k 0 (by simpa using hk) (by simpa using herr)
      (by simpa using hfirst)
    simpa [waitForDeployment] using this
  intro k
  induction k with
  | zero =>
      intro t hk hdel _
      simp only [Nat.zero_mul, Nat.add_zero] at hk hdel ⊢
      rw [waitForDeploymentAux_done hI hk (Or.inr hdel), hdel]
  | succ k' ih =>
      intro t hk hdel hfirst
      have harith : ∀ m : Nat,
          t + (m + 1) * pollInterval = (t + pollInterval) + m * pollInterval := by
        intro m
        rw [Nat.succ_mul]
        omega
      have h0 := hfirst 0 (Nat.succ_pos k')
      simp only [Nat.zero_mul, Nat.add_zero] at h0
      have ht : t < maxWaitTime := by
        have := hk
        rw [harith] at this
        omega
      rw [waitForDeploymentAux_next hI ht h0, harith]
      refine ih (t + pollInterval) ?_ ?_ ?_
      · rw [← harith]; exact hk
      · rw [← harith]; exact hdel
      · intro j hj
        rw [← harith]
        exact hfirst (j + 1) (by omega)

end VercelService

/-! ### The update semantics of `updateStep` -/

theorem applyPatch_id (p : StepPatch) (s : Step) : (applyPatch p s).id = s.id := rfl

theorem find?_updateSteps (sid : String) (p : StepPatch) :
    ∀ (l : List Step) (st : Step),
      l.find? (fun s => s.id = sid) = some st →
      (updateSteps sid p l).find? (fun s => s.id = sid) = some (applyPatch p st) := by
  intro l
  induction l with
  | nil => intro st h; simp at h
  | cons s rest ih =>
      intro st h
      by_cases hid : s.id = sid
      · rw [List.find?_cons_of_pos _ (by simpa using hid)] at h
        cases h
        simp only [updateSteps, if_pos hid]
        exact List.find?_cons_of_pos _ (by simpa [applyPatch_id] using hid)
      · rw [List.find?_cons_of_neg _ (by simpa using hid)] at h
        simp only [updateSteps, if_neg hid]
        rw [List.find?_cons_of_neg _ (by simpa using hid)]
        exact ih st h

theorem steps_any_of_find? (l : List Step) (sid : String) (st : Step)
    (h : l.find? (fun s => s.id = sid) = some st) :
    l.any (fun s => s.id = sid) = true := by
  have hmem := List.mem_of_find?_eq_some h
  have hpred := List.find?_some h
  exact List.any_eq_true.mpr ⟨st, hmem, hpred⟩

theorem findStep_update (r : DeploymentRecord) (sid : String) (p : StepPatch)
    (now : Nat) (st : Step) (h : findStep r sid = some st) :
    findStep (applyWrite r (Write.step sid p now)) sid = some (applyPatch p st) := by
  unfold findStep at h ⊢
  simp only [applyWrite]
  rw [if_pos (steps_any_of_find? r.steps sid st h)]
  exact find?_updateSteps sid p r.steps st h

/-! ### Properties of the deployment event bus -/

theorem emitterOn_nodup {subs : EmitterState} (d : String) (l : Nat)
    (h : subs.Nodup) : (emitterOn d l subs).Nodup := by
  unfold emitterOn
  split
  · exact h
  · next hmem =>
      rw [List.nodup_append]
      refine ⟨h, List.nodup_singleton _, ?_⟩
      intro a ha hb
      simp only [List.mem_singleton] at hb
      subst hb
      exact hmem ha

theorem emitterOff_nodup {subs : EmitterState} (d : String) (l : Nat)
    (h : subs.Nodup) : (emitterOff d l subs).Nodup :=
  h.filter _

theorem applyEmitterOp_nodup {subs : EmitterState} (op : EmitterOp)
    (h : subs.Nodup) : (applyEmitterOp subs op).Nodup := by
  rcases op with ⟨d, l⟩ | ⟨d, l⟩
  · exact emitterOn_nodup d l h
  · exact emitterOff_nodup d l h

theorem runEmitterOps_nodup (ops : List EmitterOp) : (runEmitterOps ops).Nodup := by
  unfold runEmitterOps
  suffices hgen : ∀ (ops : List EmitterOp) (subs : EmitterState), subs.Nodup →
      (ops.foldl applyEmitterOp subs).Nodup by
    exact hgen ops [] List.nodup_nil
  intro ops
  induction ops with
  | nil => intro subs h; exact h
  | cons op rest ih =>
      intro subs h
      exact ih _ (applyEmitterOp_nodup op h)

theorem emit_count (subs : EmitterState) (hn : subs.Nodup)
    (e : DeploymentEvent) (l : Nat) :
    (emit subs e).count (l, e) =
      if (e.deploymentId, l) ∈ subs then 1 else 0 := by
  induction subs with
  | nil => simp [emit]
  | cons p rest ih =>
      rw [List.nodup_cons] at hn
      have ihr := ih hn.2
      unfold emit at ihr ⊢
      by_cases hd : p.1 = e.deploymentId
      · rw [List.filter_cons_of_pos (by simpa using hd)]
        rw [List.map_cons, List.count_cons]
        by_cases hl : p.2 = l
        · have hpe : p = (e.deploymentId, l) := by
            cases p
            simp_all
          rw [ihr]
          have hnotin : (e.deploymentId, l) ∉ rest := by
            rw [← hpe]
            exact hn.1
          simp [hpe, hnotin, hl]
        · have hne : (e.deploymentId, l) ≠ p := by
            intro hcontra
            subst hcontra
            simp at hl
          rw [ihr]
          have : ((p.2, e) == (l, e)) = false := by
            simp [Prod.ext_iff]
            intro hcontra
            exact absurd hcontra hl
          rw [this]
          simp [List.mem_cons, hne]
      · rw [List.filter_cons_of_neg (by simpa using hd)]
        rw [ihr]
        have hne : (e.deploymentId, l) ≠ p := by
          intro hcontra
          subst hcontra
          simp at hd
        simp [List.mem_cons, hne]

theorem emit_mem (subs : EmitterState) (e : DeploymentEvent) (l2 : Nat)
    (e2 : DeploymentEvent) (h : (l2, e2) ∈ emit subs e) :
    e2 = e ∧ (e.deploymentId, l2) ∈ subs := by
  unfold emit at h
  simp only [List.mem_map, List.mem_filter] at h
  rcases h with ⟨p, ⟨hpmem, hpd⟩, hpe⟩
  have he : e2 = e := by
    have := congrArg Prod.snd hpe
    simpa using this.symm
  have hl : p.2 = l2 := by
    have := congrArg Prod.fst hpe
    simpa using this
  refine ⟨he, ?_⟩
  have hp : p = (e.deploymentId, l2) := by
    cases p
    simp_all
  rw [← hp]
  exact hpmem

theorem emit_nil_of_no_subscriber (subs : EmitterState) (e : DeploymentEvent)
    (h : ∀ l3, (e.deploymentId, l3) ∉ subs) : emit subs e = [] := by
  unfold emit
  rw [List.filter_eq_nil_iff.mpr, List.map_nil]
  intro p hp
  simp only [decide_eq_true_eq]
  intro hpd
  have hfull : p = (e.deploymentId, p.2) := by
    cases p
    simp_all
  exact h p.2 (hfull ▸ hp)

/-! ## Claim theorems -/

/-- Claim C9: emitting an event for a deployment id delivers exactly
one copy to each listener subscribed to that id (each subscribed
listener is counted once, since the source stores listeners in a
`Set`), delivers nothing to listeners subscribed to other ids (every
delivery goes to a listener subscribed to the event's own id), and is
a no-op when nobody is subscribed to that id. -/
theorem emitter_delivers_exactly_once :
    ∀ (ops : List EmitterOp) (e : DeploymentEvent) (l : Nat),
      ((emit (runEmitterOps ops) e).count (l, e) =
        if (e.deploymentId, l) ∈ runEmitterOps ops then 1 else 0) ∧
      (∀ (l2 : Nat) (e2 : DeploymentEvent), (l2, e2) ∈ emit (runEmitterOps ops) e →
        e2 = e ∧ (e.deploymentId, l2) ∈ runEmitterOps ops) ∧
      ((∀ l3, (e.deploymentId, l3) ∉ runEmitterOps ops) →
        emit (runEmitterOps ops) e = []) :=
  fun ops e l =>
    ⟨emit_count (runEmitterOps ops) (runEmitterOps_nodup ops) e l,
     fun l2 e2 h => emit_mem (runEmitterOps ops) e l2 e2 h,
     fun h => emit_nil_of_no_subscriber (runEmitterOps ops) e h⟩

/-- Witness for C9: with one listener subscribed to id "a", emitting
an event for "a" delivers exactly one copy to it. -/
theorem emitter_delivers_exactly_once_witness :
    (emit (runEmitterOps [EmitterOp.on "a" 0]) sampleEvent).count (0, sampleEvent) = 1 := by
  have h := (emitter_delivers_exactly_once [EmitterOp.on "a" 0] sampleEvent 0).1
  rw [h]
  decide

/-- Claim C10: an `updateStep` call overwrites all five mutable step
fields with the patch values, so a field absent from the patch is
erased rather than kept; in particular the completed write erases the
startedAt timestamp written by the preceding in-progress write. -/
theorem updateStep_overwrites_every_field :
    ∀ (r : DeploymentRecord) (sid : String) (p : StepPatch) (now : Nat) (st : Step),
      findStep r sid = some st →
      (findStep (applyWrite r (Write.step sid p now)) sid =
        some { id := st.id, name := st.name, status := p.status,
               startedAt := p.startedAt, completedAt := p.completedAt,
               message := p.message, error := p.error }) ∧
      ∀ t1 t2 : Nat,
        findStep (applyWrite (applyWrite r (Write.step sid (inProgressPatch t1) t1))
            (Write.step sid (completedPatch t2) t2)) sid =
          some { id := st.id, name := st.name, status := some StepStatus.completed,
                 startedAt := none, completedAt := some t2, message := none, error := none } := by
  intro r sid p now st h
  constructor
  · exact findStep_update r sid p now st h
  · intro t1 t2
    have h1 := findStep_update r sid (inProgressPatch t1) t1 st h
    have h2 := findStep_update _ sid (completedPatch t2) t2 _ h1
    exact h2

/-- Witness for C10: on the freshly created record, marking the
github step in-progress and then completed leaves startedAt erased. -/
theorem updateStep_overwrites_every_field_witness :
    findStep (applyWrite (applyWrite (createDeploymentRecord sampleRequest "d1")
        (Write.step "github" (inProgressPatch 1) 1))
        (Write.step "github" (completedPatch 2) 2)) "github" =
      some { id := "github", name := "Create GitHub Repository",
             status := some StepStatus.completed, startedAt := none,
             completedAt := some 2, message := none, error := none } :=
  (updateStep_overwrites_every_field (createDeploymentRecord sampleRequest "d1")
    "github" (completedPatch 2) 2
    ⟨"github", "Create GitHub Repository", some StepStatus.pending, none, none, none, none⟩
    (by decide)).2 1 2

/-- Claim C3 (counterexample): the polling outcome is NOT determined
by whether the resource reaches its success state strictly before
the deadline, and it is NOT independent of the polling interval.
`rampCluster` is IDLE from 10 ms on, strictly before the 11 ms
deadline; polled every 10 ms the wait succeeds, but polled every 6 ms
(a shorter interval) it times out, because the poll grid 0, 6, 12
skips past the deadline without observing the ready state. -/
theorem waitUntilReady_interval_counterexample :
    (rampCluster 10 = ClusterState.IDLE ∧ 10 < 11) ∧
    (∃ u, MongoDBService.waitForCluster rampCluster 11 10 (by decide) =
      MongoWaitResult.ready u) ∧
    MongoDBService.waitForCluster rampCluster 11 6 (by decide) =
      MongoWaitResult.timeout := by
  refine ⟨⟨by decide, by decide⟩, ?_, ?_⟩
  · refine (MongoDBService.waitForCluster_ready_iff rampCluster 11 10 (by decide)).mpr
      ⟨1, by decide, by decide, ?_⟩
    intro j hj
    have hj0 : j = 0 := by omega
    subst hj0
    decide
  · refine (MongoDBService.waitForCluster_timeout_iff rampCluster 11 6 (by decide)).mpr ?_
    intro k hk
    have hk1 : k ≤ 1 := by omega
    interval_cases k <;> exact ⟨by decide, by decide⟩

/-- Claim C3 (amended): a wait loop returns successfully exactly when
some poll time (a multiple of the polling interval) strictly below
the deadline observes a terminal state the loop returns on — IDLE for
the cluster loop (with no earlier poll observing DELETED), READY or
ERROR for the deployment loop — and it fails with the timeout error
exactly when no poll time strictly below the deadline observes a
terminal state.  The outcome is a property of the poll grid, not of
the state trajectory alone, so it can differ between intervals. -/
theorem waitUntilReady_outcome_characterization :
    ∀ (s : Nat → ClusterState) (v : Nat → ReadyState)
      (maxWaitTime pollInterval : Nat) (hI : 0 < pollInterval),
      ((∃ u, MongoDBService.waitForCluster s maxWaitTime pollInterval hI =
          MongoWaitResult.ready u) ↔
        ∃ k, k * pollInterval < maxWaitTime ∧
          s (k * pollInterval) = ClusterState.IDLE ∧
          ∀ j < k, s (j * pollInterval) ≠ ClusterState.DELETED) ∧
      (MongoDBService.waitForCluster s maxWaitTime pollInterval hI =
          MongoWaitResult.timeout ↔
        ∀ k, k * pollInterval < maxWaitTime →
          s (k * pollInterval) ≠ ClusterState.IDLE ∧
          s (k * pollInterval) ≠ ClusterState.DELETED) ∧
      ((∃ st u, VercelService.waitForDeployment v maxWaitTime pollInterval hI =
          VercelWaitResult.done st u) ↔
        ∃ k, k * pollInterval < maxWaitTime ∧
          (v (k * pollInterval) = ReadyState.READY ∨
            v (k * pollInterval) = ReadyState.ERROR)) ∧
      (VercelService.waitForDeployment v maxWaitTime pollInterval hI =
          VercelWaitResult.timeout ↔
        ∀ k, k * pollInterval < maxWaitTime →
          ¬ (v (k * pollInterval) = ReadyState.READY ∨
            v (k * pollInterval) = ReadyState.ERROR)) :=
  fun s v maxWaitTime pollInterval hI =>
    ⟨MongoDBService.waitForCluster_ready_iff s maxWaitTime pollInterval hI,
     MongoDBService.waitForCluster_timeout_iff s maxWaitTime pollInterval hI,
     VercelService.waitForDeployment_done_iff v maxWaitTime pollInterval hI,
     VercelService.waitForDeployment_timeout_iff v maxWaitTime pollInterval hI⟩

/-- Witness for C3 (amended) at a concrete trace: a cluster stuck in
CREATING times out against a 2 ms deadline polled every 1 ms. -/
theorem waitUntilReady_outcome_characterization_witness :
    MongoDBService.waitForCluster stuckCluster 2 1 (by decide) =
      MongoWaitResult.timeout := by
  refine (waitUntilReady_outcome_characterization stuckCluster
    (fun _ => ReadyState.BUILDING) 2 1 (by decide)).2.1.mpr ?_
  intro k hk
  exact ⟨fun h => ClusterState.noConfusion h, fun h => ClusterState.noConfusion h⟩

/-- Claim C4 (counterexample): a deployment whose readyState is the
terminal-failure value ERROR from the start, polled against a 1 ms
deadline, is RETURNED by `waitForDeployment` as a normal result
(constructor `done`) rather than making the operation fail; the
source's loop exits with `return deployment` on both READY and
ERROR. -/
theorem waitForDeployment_error_counterexample :
    (fun _ : Nat => ReadyState.ERROR) 0 = ReadyState.ERROR ∧ 0 < 1 ∧
    VercelService.waitForDeployment (fun _ => ReadyState.ERROR) 1 1 (by decide) =
      VercelWaitResult.done ReadyState.ERROR 0 := by
  refine ⟨rfl, by decide, ?_⟩
  have h := VercelService.waitForDeployment_done_error_of_first
    (fun _ => ReadyState.ERROR) 1 1 (by decide) 0 (by decide) rfl ?_
  · simpa using h
  · intro j hj
    omega

/-- Claim C4 (amended): when the first terminal state observed before
the deadline is a terminal-failure value, the MongoDB loop fails with
the "Cluster was deleted" error, but the Vercel loop instead returns
the deployment normally with readyState ERROR; only its caller turns
that into an error. -/
theorem terminal_failure_handling :
    ∀ (s : Nat → ClusterState) (v : Nat → ReadyState)
      (maxWaitTime pollInterval : Nat) (hI : 0 < pollInterval) (k : Nat),
      (k * pollInterval < maxWaitTime →
        s (k * pollInterval) = ClusterState.DELETED →
        (∀ j < k, s (j * pollInterval) ≠ ClusterState.IDLE ∧
          s (j * pollInterval) ≠ ClusterState.DELETED) →
        MongoDBService.waitForCluster s maxWaitTime pollInterval hI =
          MongoWaitResult.deleted) ∧
      (k * pollInterval < maxWaitTime →
        v (k * pollInterval) = ReadyState.ERROR →
        (∀ j < k, ¬ (v (j * pollInterval) = ReadyState.READY ∨
          v (j * pollInterval) = ReadyState.ERROR)) →
        VercelService.waitForDeployment v maxWaitTime pollInterval hI =
          VercelWaitResult.done ReadyState.ERROR (k * pollInterval)) :=
  fun s v maxWaitTime pollInterval hI k =>
    ⟨fun hk hdel hfirst =>
      MongoDBService.waitForCluster_deleted_of_first s maxWaitTime pollInterval hI
        k hk hdel hfirst,
     fun hk herr hfirst =>
      VercelService.waitForDeployment_done_error_of_first v maxWaitTime pollInterval hI
        k hk herr hfirst⟩

/-- Witness for C4 (amended) at concrete traces: a cluster DELETED
from the start makes the MongoDB wait fail, while a deployment in
ERROR from the start is returned normally by the Vercel wait. -/
theorem terminal_failure_handling_witness :
    MongoDBService.waitForCluster (fun _ => ClusterState.DELETED) 1 1 (by decide) =
      MongoWaitResult.deleted ∧
    VercelService.waitForDeployment (fun _ => ReadyState.ERROR) 1 1 (by decide) =
      VercelWaitResult.done ReadyState.ERROR 0 := by
  have h := terminal_failure_handling (fun _ => ClusterState.DELETED)
    (fun _ => ReadyState.ERROR) 1 1 (by decide) 0
  constructor
  · exact h.1 (by decide) rfl (fun j hj => absurd hj (Nat.not_lt_zero j))
  · have h2 := h.2 (by decide) rfl (fun j hj => absurd hj (Nat.not_lt_zero j))
    simpa using h2

/-! ### Behavior of the POST handler -/

theorem stuckCluster_timeout :
    MongoDBService.waitForCluster stuckCluster 1800000 30000 (by omega) =
      MongoWaitResult.timeout := by
  refine (MongoDBService.waitForCluster_timeout_iff stuckCluster 1800000 30000
    (by omega)).mpr ?_
  intro k hk
  exact ⟨fun h => ClusterState.noConfusion h, fun h => ClusterState.noConfusion h⟩

theorem initiateDeployment_ok (env : RouteEnv) (keys : ApiKeys)
    (req : CreateAppRequest) (oc : RouteOutcomes)
    (hu : env.GITHUB_USERNAME ≠ "") :
    ∃ tr, initiateDeployment env keys req oc = Except.ok tr := by
  unfold initiateDeployment
  rw [if_neg hu]
  repeat' split
  all_goals exact ⟨_, rfl⟩

/-- Claim C5 (counterexample): validation passes (no missing field,
no missing API key) yet the handler does not answer with the started
response: because `initiateDeployment` is awaited before responding,
its GITHUB_USERNAME throw surfaces as the 500 internal-error response
of the outer catch.  The orchestration is not run in the background
after the response; the response is computed from its outcome. -/
theorem submit_response_counterexample :
    missingRequiredFieldsSpec sampleRequest = [] ∧
    missingKeys sampleKeys = [] ∧
    POST sampleRequest sampleKeys envNoUsername okOutcomes "d1" =
      (ApiResponse.internalError, some []) := by decide

/-- Claim C5 (amended): the handler awaits the orchestration and
responds from its outcome.  Once field and API-key validation pass
and the GITHUB_USERNAME guard holds, `initiateDeployment` returns
normally for every provider outcome (step failures are caught
inside), and the response is `{deploymentId, status: started}`
regardless of how the steps fared; if the orchestration throws
before its first step, the handler responds with the 500
internal-error response instead. -/
theorem submit_response_after_validation :
    ∀ (body : CreateAppRequest) (keys5 : ApiKeys) (env : RouteEnv)
      (oc : RouteOutcomes) (did : String),
      ¬ (body.projectName = "" ∨ body.description = "" ∨ body.template = "" ∨
          body.githubRepo = "" ∨ body.targetCluster = "") →
      missingKeys keys5 = [] →
      env.GITHUB_USERNAME ≠ "" →
      ∃ tr, POST body keys5 env oc did = (ApiResponse.started did, some tr) := by
  intro body keys5 env oc did hfields hkeys hu
  rcases initiateDeployment_ok env keys5 body oc hu with ⟨tr, htr⟩
  refine ⟨tr, ?_⟩
  unfold POST
  rw [if_neg hfields, if_neg (by rw [hkeys]; simp), htr]

/-- Witness for C5 (amended) at a concrete valid submission. -/
theorem submit_response_after_validation_witness :
    ∃ tr, POST sampleRequest sampleKeys sampleEnv okOutcomes "d1" =
      (ApiResponse.started "d1", some tr) :=
  submit_response_after_validation sampleRequest sampleKeys sampleEnv okOutcomes "d1"
    (by decide) (by decide) (by decide)

/-- Claim C7 (counterexample): two submissions with different sets of
missing required fields receive the identical constant 400 response,
so the field-validation error cannot be enumerating the missing
fields. -/
theorem missing_fields_not_enumerated_counterexample :
    POST bodyMissingName sampleKeys sampleEnv okOutcomes "d1" =
      (ApiResponse.missingFields, none) ∧
    POST bodyMissingDescription sampleKeys sampleEnv okOutcomes "d1" =
      (ApiResponse.missingFields, none) ∧
    missingRequiredFieldsSpec bodyMissingName ≠
      missingRequiredFieldsSpec bodyMissingDescription := by decide

/-- Claim C7 (amended): a submission missing any required field is
rejected before the orchestration (and hence before any provider) is
invoked, but with the constant "Missing required fields" error that
names no fields; only the separate API-key check enumerates every
missing key (a key name is listed exactly when its value is empty,
not just the first one found). -/
theorem validation_fails_fast :
    ∀ (body : CreateAppRequest) (keys5 : ApiKeys) (env : RouteEnv)
      (oc : RouteOutcomes) (did : String),
      ((body.projectName = "" ∨ body.description = "" ∨ body.template = "" ∨
          body.githubRepo = "" ∨ body.targetCluster = "") →
        POST body keys5 env oc did = (ApiResponse.missingFields, none)) ∧
      ∀ n : String, n ∈ missingKeys keys5 ↔ (n, "") ∈ apiKeyEntries keys5 := by
  intro body keys5 env oc did
  constructor
  · intro h
    unfold POST
    rw [if_pos h]
  · intro n
    simp only [missingKeys, List.mem_map, List.mem_filter, decide_eq_true_eq]
    constructor
    · rintro ⟨⟨a, b⟩, ⟨hmem, hb⟩, ha⟩
      simp only at hb ha
      subst hb
      subst ha
      exact hmem
    · intro hmem
      exact ⟨(n, ""), ⟨hmem, rfl⟩, rfl⟩

/-- Witness for C7 (amended): a submission missing its project name
is rejected with the constant response, before orchestration. -/
theorem validation_fails_fast_witness :
    POST bodyMissingName sampleKeys sampleEnv okOutcomes "d1" =
      (ApiResponse.missingFields, none) :=
  (validation_fails_fast bodyMissingName sampleKeys sampleEnv okOutcomes "d1").1
    (by decide)

/-- Claim C1: whenever a required step (github = repository,
vercel = hosting) ends in status error, the record status is failed
with that step recorded as errorStep, and every subsequent step is
still pending — the run aborted before touching it. -/
theorem requiredStepError_aborts :
    ∀ (env : RouteEnv) (keys : ApiKeys) (req : CreateAppRequest)
      (oc : RouteOutcomes) (did : String),
      (stepStatus (finalRecord req did env keys oc) "github" =
          some (some StepStatus.error) →
        (finalRecord req did env keys oc).status = DeployStatus.failed ∧
        (finalRecord req did env keys oc).errorStep = some "github" ∧
        stepStatus (finalRecord req did env keys oc) "vercel" = some (some StepStatus.pending) ∧
        stepStatus (finalRecord req did env keys oc) "mongodb" = some (some StepStatus.pending) ∧
        stepStatus (finalRecord req did env keys oc) "clerk" = some (some StepStatus.pending) ∧
        stepStatus (finalRecord req did env keys oc) "google" = some (some StepStatus.pending)) ∧
      (stepStatus (finalRecord req did env keys oc) "vercel" =
          some (some StepStatus.error) →
        (finalRecord req did env keys oc).status = DeployStatus.failed ∧
        (finalRecord req did env keys oc).errorStep = some "vercel" ∧
        stepStatus (finalRecord req did env keys oc) "mongodb" = some (some StepStatus.pending) ∧
        stepStatus (finalRecord req did env keys oc) "clerk" = some (some StepStatus.pending) ∧
        stepStatus (finalRecord req did env keys oc) "google" = some (some StepStatus.pending)) := by
  intro env keys req oc did
  by_cases hu : env.GITHUB_USERNAME = "" <;>
  [skip;
   cases hgo : oc.github_createRepository] <;>
  [skip; skip;
   by_cases hv : keys.vercel = ""] <;>
  [skip; skip; skip;
   cases hvp : oc.vercel_createProject] <;>
  [skip; skip; skip; skip;
   cases hvd : oc.vercel_getProjectDeployments] <;>
  [skip; skip; skip; skip; skip;
   by_cases hm : keys.mongodb = "" ∨ env.MONGODB_PRIVATE_KEY = "" ∨ env.MONGODB_ORG_ID = ""] <;>
  [skip; skip; skip; skip; skip; skip;
   cases hmp : oc.mongo_createProject] <;>
  [skip; skip; skip; skip; skip; skip; skip;
   cases hmc : oc.mongo_createCluster] <;>
  [skip; skip; skip; skip; skip; skip; skip; skip;
   cases hmi : oc.mongo_addIPWhitelist] <;>
  [skip; skip; skip; skip; skip; skip; skip; skip; skip;
   cases hmu : oc.mongo_createDatabaseUser] <;>
  [skip; skip; skip; skip; skip; skip; skip; skip; skip; skip;
   cases hmg : oc.mongo_getCluster] <;>
  [skip; skip; skip; skip; skip; skip; skip; skip; skip; skip; skip;
   by_cases hc : keys.clerk = ""] <;>
  [skip; skip; skip; skip; skip; skip; skip; skip; skip; skip; skip; skip;
   cases hca : oc.clerk_createApplication] <;>
  [skip; skip; skip; skip; skip; skip; skip; skip; skip; skip; skip; skip; skip;
   cases hcs : oc.clerk_setupDefaultConfiguration] <;>
  [skip; skip; skip; skip; skip; skip; skip; skip; skip; skip; skip; skip; skip; skip;
   cases hck : oc.clerk_createAPIKeys] <;>
  [skip; skip; skip; skip; skip; skip; skip; skip; skip; skip; skip; skip; skip; skip; skip;
   by_cases hg2 : env.GOOGLE_CLIENT_EMAIL = "" ∨ env.GOOGLE_PRIVATE_KEY = ""] <;>
  [skip; skip; skip; skip; skip; skip; skip; skip; skip; skip; skip; skip; skip; skip; skip; skip;
   cases hgp : oc.google_createProject] <;>
  simp_all [finalRecord, initiateDeployment, githubStepWrites, vercelStepWrites,
    vercelStepFail, mongoStepWrites, mongoStepFail, clerkStepWrites, clerkStepFail,
    googleStepWrites, stepStatus, findStep, createDeploymentRecord, initialSteps,
    applyTrace, Except.toOption, Option.getD, applyWrite, updateSteps, applyPatch,
    inProgressPatch, completedPatch, errorPatch, List.find?, List.any]

/-- Witness for C1: a concrete run whose GitHub call throws ends
failed with errorStep github and all later steps pending. -/
theorem requiredStepError_aborts_witness :
    (finalRecord sampleRequest "d1" sampleEnv sampleKeys ghFailOutcomes).status =
        DeployStatus.failed ∧
    (finalRecord sampleRequest "d1" sampleEnv sampleKeys ghFailOutcomes).errorStep =
        some "github" ∧
    stepStatus (finalRecord sampleRequest "d1" sampleEnv sampleKeys ghFailOutcomes)
        "vercel" = some (some StepStatus.pending) ∧
    stepStatus (finalRecord sampleRequest "d1" sampleEnv sampleKeys ghFailOutcomes)
        "mongodb" = some (some StepStatus.pending) ∧
    stepStatus (finalRecord sampleRequest "d1" sampleEnv sampleKeys ghFailOutcomes)
        "clerk" = some (some StepStatus.pending) ∧
    stepStatus (finalRecord sampleRequest "d1" sampleEnv sampleKeys ghFailOutcomes)
        "google" = some (some StepStatus.pending) :=
  (requiredStepError_aborts sampleEnv sampleKeys sampleRequest ghFailOutcomes "d1").1
    (by decide)

/-! ### Per-block status-write sequences -/

theorem stepStatusWrites_append (sid : String) (a b : List Write) :
    stepStatusWrites sid (a ++ b) =
      stepStatusWrites sid a ++ stepStatusWrites sid b :=
  List.filterMap_append a b _

theorem githubBlock_statusWrites (oc : RouteOutcomes) (t : Nat) (sid : String) :
    stepStatusWrites sid (githubStepWrites oc t).1 ∈ allowedStatusSequences ∧
    ("github" ≠ sid → stepStatusWrites sid (githubStepWrites oc t).1 = []) := by
  cases hgo : oc.github_createRepository <;>
  by_cases h : "github" = sid <;>
  simp_all [githubStepWrites, stepStatusWrites, allowedStatusSequences,
    inProgressPatch, completedPatch, errorPatch]

theorem vercelBlock_statusWrites (keys : ApiKeys) (oc : RouteOutcomes) (t : Nat)
    (sid : String) :
    stepStatusWrites sid (vercelStepWrites keys oc t).1 ∈ allowedStatusSequences ∧
    ("vercel" ≠ sid → stepStatusWrites sid (vercelStepWrites keys oc t).1 = []) := by
  by_cases hv : keys.vercel = "" <;>
  cases hvp : oc.vercel_createProject <;>
  cases hvd : oc.vercel_getProjectDeployments <;>
  by_cases h : "vercel" = sid <;>
  simp_all [vercelStepWrites, vercelStepFail, stepStatusWrites, allowedStatusSequences,
    inProgressPatch, completedPatch, errorPatch]

theorem mongoBlock_statusWrites (env : RouteEnv) (keys : ApiKeys)
    (req : CreateAppRequest) (oc : RouteOutcomes) (t : Nat) (sid : String) :
    stepStatusWrites sid (mongoStepWrites env keys req oc t).1 ∈ allowedStatusSequences ∧
    ("mongodb" ≠ sid → stepStatusWrites sid (mongoStepWrites env keys req oc t).1 = []) := by
  by_cases hm : keys.mongodb = "" ∨ env.MONGODB_PRIVATE_KEY = "" ∨ env.MONGODB_ORG_ID = "" <;>
  cases hmp : oc.mongo_createProject <;>
  cases hmc : oc.mongo_createCluster <;>
  cases hmi : oc.mongo_addIPWhitelist <;>
  cases hmu : oc.mongo_createDatabaseUser <;>
  cases hmg : oc.mongo_getCluster <;>
  by_cases h : "mongodb" = sid <;>
  simp_all [mongoStepWrites, mongoStepFail, stepStatusWrites, allowedStatusSequences,
    inProgressPatch, completedPatch, errorPatch]

theorem clerkBlock_statusWrites (keys : ApiKeys) (oc : RouteOutcomes) (t : Nat)
    (sid : String) :
    stepStatusWrites sid (clerkStepWrites keys oc t).1 ∈ allowedStatusSequences ∧
    ("clerk" ≠ sid → stepStatusWrites sid (clerkStepWrites keys oc t).1 = []) := by
  by_cases hc : keys.clerk = "" <;>
  cases hca : oc.clerk_createApplication <;>
  cases hcs : oc.clerk_setupDefaultConfiguration <;>
  cases hck : oc.clerk_createAPIKeys <;>
  by_cases h : "clerk" = sid <;>
  simp_all [clerkStepWrites, clerkStepFail, stepStatusWrites, allowedStatusSequences,
    inProgressPatch, completedPatch, errorPatch]

theorem googleBlock_statusWrites (env : RouteEnv) (oc : RouteOutcomes) (t : Nat)
    (sid : String) :
    stepStatusWrites sid (googleStepWrites env oc t).1 ∈ allowedStatusSequences ∧
    ("google" ≠ sid → stepStatusWrites sid (googleStepWrites env oc t).1 = []) := by
  by_cases hg2 : env.GOOGLE_CLIENT_EMAIL = "" ∨ env.GOOGLE_PRIVATE_KEY = "" <;>
  cases hgp : oc.google_createProject <;>
  by_cases h : "google" = sid <;>
  simp_all [googleStepWrites, stepStatusWrites, allowedStatusSequences,
    inProgressPatch, completedPatch, errorPatch]

/-- Claim C6: within one run, the statuses written into any single
step form a prefix of in-progress followed by at most one terminal
status (the step blocks touch distinct step ids exactly once each):
statuses never regress, and once completed or error has been written
for a step, no later write touches that step's status again. -/
theorem stepStatusWrites_monotonic :
    ∀ (env : RouteEnv) (keys : ApiKeys) (req : CreateAppRequest)
      (oc : RouteOutcomes) (tr : List Write),
      initiateDeployment env keys req oc = Except.ok tr →
      ∀ sid : String, stepStatusWrites sid tr ∈ allowedStatusSequences := by
  intro env keys req oc tr h sid
  unfold initiateDeployment at h
  by_cases hu : env.GITHUB_USERNAME = ""
  · rw [if_pos hu] at h
    exact absurd h (by simp)
  · rw [if_neg hu] at h
    split at h
    · rename_i g t1 heq
      injection h with htr
      subst htr
      have hgb := githubBlock_statusWrites oc 0 sid
      rw [heq] at hgb
      exact hgb.1
    · rename_i g t1 heq
      have hgb := githubBlock_statusWrites oc 0 sid
      rw [heq] at hgb
      split at h
      · rename_i v t2 heq2
        injection h with htr
        subst htr
        have hvb := vercelBlock_statusWrites keys oc t1 sid
        rw [heq2] at hvb
        rw [stepStatusWrites_append]
        by_cases h1 : "github" = sid
        · rw [show stepStatusWrites sid v = [] from hvb.2 (by rw [← h1]; decide)]
          simpa using hgb.1
        · rw [show stepStatusWrites sid g = [] from hgb.2 h1]
          simpa using hvb.1
      · rename_i v t2 heq2
        have hvb := vercelBlock_statusWrites keys oc t1 sid
        rw [heq2] at hvb
        split at h
        · rename_i m t3 heq3
          injection h with htr
          subst htr
          have hmb := mongoBlock_statusWrites env keys req oc t2 sid
          rw [heq3] at hmb
          rw [stepStatusWrites_append, stepStatusWrites_append]
          by_cases h1 : "github" = sid
          · rw [show stepStatusWrites sid v = [] from hvb.2 (by rw [← h1]; decide),
              show stepStatusWrites sid m = [] from hmb.2 (by rw [← h1]; decide)]
            simpa using hgb.1
          · rw [show stepStatusWrites sid g = [] from hgb.2 h1]
            by_cases h2 : "vercel" = sid
            · rw [show stepStatusWrites sid m = [] from hmb.2 (by rw [← h2]; decide)]
              simpa using hvb.1
            · rw [show stepStatusWrites sid v = [] from hvb.2 h2]
              simpa using hmb.1
        · rename_i m t3 heq3
          have hmb := mongoBlock_statusWrites env keys req oc t2 sid
          rw [heq3] at hmb
          split at h
          · rename_i c t4 heq4
            injection h with htr
            subst htr
            have hcb := clerkBlock_statusWrites keys oc t3 sid
            rw [heq4] at hcb
            rw [stepStatusWrites_append, stepStatusWrites_append,
              stepStatusWrites_append]
            by_cases h1 : "github" = sid
            · rw [show stepStatusWrites sid v = [] from hvb.2 (by rw [← h1]; decide),
                show stepStatusWrites sid m = [] from hmb.2 (by rw [← h1]; decide),
                show stepStatusWrites sid c = [] from hcb.2 (by rw [← h1]; decide)]
              simpa using hgb.1
            · rw [show stepStatusWrites sid g = [] from hgb.2 h1]
              by_cases h2 : "vercel" = sid
              · rw [show stepStatusWrites sid m = [] from hmb.2 (by rw [← h2]; decide),
                  show stepStatusWrites sid c = [] from hcb.2 (by rw [← h2]; decide)]
                simpa using hvb.1
              · rw [show stepStatusWrites sid v = [] from hvb.2 h2]
                by_cases h3 : "mongodb" = sid
                · rw [show stepStatusWrites sid c = [] from hcb.2 (by rw [← h3]; decide)]
                  simpa using hmb.1
                · rw [show stepStatusWrites sid m = [] from hmb.2 h3]
                  simpa using hcb.1
          · rename_i c t4 heq4
            have hcb := clerkBlock_statusWrites keys oc t3 sid
            rw [heq4] at hcb
            split at h
            rename_i gg t5 heq5
            injection h with htr
            subst htr
            have hggb := googleBlock_statusWrites env oc t4 sid
            rw [heq5] at hggb
            rw [stepStatusWrites_append, stepStatusWrites_append,
              stepStatusWrites_append, stepStatusWrites_append,
              stepStatusWrites_append]
            have htail : stepStatusWrites sid
                [Write.fields (FieldsWrite.complete t5)] = [] := by
              simp [stepStatusWrites]
            rw [htail, List.append_nil]
            by_cases h1 : "github" = sid
            · rw [show stepStatusWrites sid v = [] from hvb.2 (by rw [← h1]; decide),
                show stepStatusWrites sid m = [] from hmb.2 (by rw [← h1]; decide),
                show stepStatusWrites sid c = [] from hcb.2 (by rw [← h1]; decide),
                show stepStatusWrites sid gg = [] from hggb.2 (by rw [← h1]; decide)]
              simpa using hgb.1
            · rw [show stepStatusWrites sid g = [] from hgb.2 h1]
              by_cases h2 : "vercel" = sid
              · rw [show stepStatusWrites sid m = [] from hmb.2 (by rw [← h2]; decide),
                  show stepStatusWrites sid c = [] from hcb.2 (by rw [← h2]; decide),
                  show stepStatusWrites sid gg = [] from hggb.2 (by rw [← h2]; decide)]
                simpa using hvb.1
              · rw [show stepStatusWrites sid v = [] from hvb.2 h2]
                by_cases h3 : "mongodb" = sid
                · rw [show stepStatusWrites sid c = [] from hcb.2 (by rw [← h3]; decide),
                    show stepStatusWrites sid gg = [] from hggb.2 (by rw [← h3]; decide)]
                  simpa using hmb.1
                · rw [show stepStatusWrites sid m = [] from hmb.2 h3]
                  by_cases h4 : "clerk" = sid
                  · rw [show stepStatusWrites sid gg = [] from hggb.2 (by rw [← h4]; decide)]
                    simpa using hcb.1
                  · rw [show stepStatusWrites sid c = [] from hcb.2 h4]
                    simpa using hggb.1

/-- Witness for C6: the github step of the all-success run receives
exactly the in-progress-then-completed write sequence. -/
theorem stepStatusWrites_monotonic_witness :
    stepStatusWrites "github"
        ((initiateDeployment sampleEnv sampleKeys sampleRequest okOutcomes).toOption.getD [])
      ∈ allowedStatusSequences :=
  stepStatusWrites_monotonic sampleEnv sampleKeys sampleRequest okOutcomes
    ((initiateDeployment sampleEnv sampleKeys sampleRequest okOutcomes).toOption.getD [])
    (by rfl) "github"

/-- Claim C2 (counterexample): with every provider call succeeding
and the cluster polling run (30 s interval, 30 min deadline, as
hard-coded in the route) timing out, the database step still ends
completed (not error), the overall deployment reaches completed, and
the connection string IS recorded: the timeout is swallowed by the
inner catch and the remaining database sub-steps run against the
possibly-unready cluster. -/
theorem clusterTimeout_counterexample :
    scenarioCOutcomes.mongo_waitForCluster = MongoWaitResult.timeout ∧
    stepStatus (finalRecord sampleRequest "d1" sampleEnv sampleKeys scenarioCOutcomes)
        "mongodb" = some (some StepStatus.completed) ∧
    (finalRecord sampleRequest "d1" sampleEnv sampleKeys scenarioCOutcomes).status =
        DeployStatus.completed ∧
    (finalRecord sampleRequest "d1" sampleEnv sampleKeys
        scenarioCOutcomes).mongodbConnectionString ≠ none := by
  refine ⟨?_, by decide, by decide, by decide⟩
  show MongoDBService.waitForCluster stuckCluster 1800000 30000 _ = _
  exact stuckCluster_timeout

/-- Claim C2 (amended): when repository and hosting succeed, database
credentials are present and the cluster polling run exceeds its
deadline, the timeout is swallowed by an inner catch: provided the
remaining database and identity sub-calls succeed, the database step
ends completed (not error), the connection string IS recorded, and
the overall deployment reaches completed. -/
theorem clusterTimeout_swallowed :
    ∀ (env : RouteEnv) (keys : ApiKeys) (req : CreateAppRequest)
      (oc : RouteOutcomes) (did : String) (cs : Nat → ClusterState)
      (hI : 0 < 30000),
      env.GITHUB_USERNAME ≠ "" →
      oc.mongo_waitForCluster = MongoDBService.waitForCluster cs 1800000 30000 hI →
      MongoDBService.waitForCluster cs 1800000 30000 hI = MongoWaitResult.timeout →
      (∃ repo, oc.github_createRepository = Except.ok repo) →
      keys.vercel ≠ "" →
      (∃ p, oc.vercel_createProject = Except.ok p) →
      (∃ ds, oc.vercel_getProjectDeployments = Except.ok ds) →
      keys.mongodb ≠ "" →
      env.MONGODB_PRIVATE_KEY ≠ "" →
      env.MONGODB_ORG_ID ≠ "" →
      (∃ mp, oc.mongo_createProject = Except.ok mp) →
      (∃ mc, oc.mongo_createCluster = Except.ok mc) →
      oc.mongo_addIPWhitelist = Except.ok () →
      oc.mongo_createDatabaseUser = Except.ok () →
      keys.clerk ≠ "" →
      (∃ app, oc.clerk_createApplication = Except.ok app) →
      oc.clerk_setupDefaultConfiguration = Except.ok () →
      (∃ kp, oc.clerk_createAPIKeys = Except.ok kp) →
      ∀ ci, oc.mongo_getCluster = Except.ok ci →
      stepStatus (finalRecord req did env keys oc) "mongodb" =
          some (some StepStatus.completed) ∧
      (finalRecord req did env keys oc).mongodbConnectionString =
        some (generateConnectionString ci "app_user" oc.mongo_dbPassword
          (databaseNameOf req.projectName)) ∧
      (finalRecord req did env keys oc).status = DeployStatus.completed := by
  intro env keys req oc did cs hI hu hwait htimeout hgh hv hvp hvd hk1 hk2 hk3
    hmp hmc hmi hmu hck hca hcs hckk ci hgc
  rcases hgh with ⟨repo, hgh⟩
  rcases hvp with ⟨p, hvp⟩
  rcases hvd with ⟨ds, hvd⟩
  rcases hmp with ⟨mp, hmp⟩
  rcases hmc with ⟨mc, hmc⟩
  rcases hca with ⟨app, hca⟩
  rcases hckk with ⟨kp, hckk⟩
  by_cases hg2 : env.GOOGLE_CLIENT_EMAIL = "" ∨ env.GOOGLE_PRIVATE_KEY = "" <;>
  [skip;
   cases hgp : oc.google_createProject] <;>
  simp_all [finalRecord, initiateDeployment, githubStepWrites, vercelStepWrites,
    vercelStepFail, mongoStepWrites, mongoStepFail, clerkStepWrites, clerkStepFail,
    googleStepWrites, stepStatus, findStep, createDeploymentRecord, initialSteps,
    applyTrace, Except.toOption, Option.getD, applyWrite, updateSteps, applyPatch,
    inProgressPatch, completedPatch, errorPatch, List.find?, List.any]

/-- Witness for C2 (amended) at the concrete scenario-C inputs. -/
theorem clusterTimeout_swallowed_witness :
    stepStatus (finalRecord sampleRequest "d1" sampleEnv sampleKeys scenarioCOutcomes)
        "mongodb" = some (some StepStatus.completed) ∧
    (finalRecord sampleRequest "d1" sampleEnv sampleKeys
        scenarioCOutcomes).mongodbConnectionString =
      some (generateConnectionString sampleCluster "app_user" "pw123"
        (databaseNameOf "My App")) ∧
    (finalRecord sampleRequest "d1" sampleEnv sampleKeys scenarioCOutcomes).status =
        DeployStatus.completed :=
  clusterTimeout_swallowed sampleEnv sampleKeys sampleRequest scenarioCOutcomes "d1"
    stuckCluster (by omega) (by decide) rfl stuckCluster_timeout
    ⟨_, rfl⟩ (by decide) ⟨_, rfl⟩ ⟨_, rfl⟩ (by decide) (by decide) (by decide)
    ⟨_, rfl⟩ ⟨_, rfl⟩ rfl rfl (by decide) ⟨_, rfl⟩ rfl ⟨_, rfl⟩ sampleCluster rfl

/-- Claim C8 (counterexample): in `DeploymentOrchestrator.deployApplication`
a failing provider call is NOT caught at the step boundary: with the
repository creation throwing "boom", the exception escapes
`deployApplication` (it rethrows after its single catch), and no
progress entry ever records the failing step "github-repo" itself as
error — only the synthetic "deployment" entry is recorded. -/
theorem orchestrator_rethrow_counterexample :
    (DeploymentOrchestrator.deployApplication minimalOrchConfig orchGHFail 0).1 =
        Except.error "boom" ∧
    ∀ p ∈ (DeploymentOrchestrator.deployApplication minimalOrchConfig orchGHFail 0).2,
      ¬ (p.step = "github-repo" ∧ p.status = StepStatus.error) := by decide

/-- Claim C8 (amended): in the create-app route's `initiateDeployment`
the claim holds: every provider error is caught at its step boundary
(the function returns normally once the GITHUB_USERNAME guard
passes), the failing step's status is set to error with the captured
message, and a github/vercel/mongodb/clerk failure also sets the
record's top-level error and errorStep, while a google failure is
recorded on its step only and the run still completes.  The
`DeploymentOrchestrator` class instead catches provider errors in a
single handler around all steps, records the failure on a synthetic
"deployment" progress entry rather than on the failing step, and
rethrows the error to its caller. -/
theorem stepBoundary_error_policy :
    (∀ (env : RouteEnv) (keys : ApiKeys) (req : CreateAppRequest) (oc : RouteOutcomes),
      env.GITHUB_USERNAME ≠ "" →
      ∃ tr, initiateDeployment env keys req oc = Except.ok tr) ∧
    (∀ (env : RouteEnv) (keys : ApiKeys) (req : CreateAppRequest) (oc : RouteOutcomes)
      (did e : String),
      env.GITHUB_USERNAME ≠ "" →
      oc.github_createRepository = Except.error e →
      stepStatus (finalRecord req did env keys oc) "github" = some (some StepStatus.error) ∧
      stepError (finalRecord req did env keys oc) "github" = some (some e) ∧
      (finalRecord req did env keys oc).error = some e ∧
      (finalRecord req did env keys oc).errorStep = some "github") ∧
    (∀ (env : RouteEnv) (keys : ApiKeys) (req : CreateAppRequest) (oc : RouteOutcomes)
      (did e : String),
      env.GITHUB_USERNAME ≠ "" →
      (∃ repo, oc.github_createRepository = Except.ok repo) →
      keys.vercel ≠ "" →
      oc.vercel_createProject = Except.error e →
      stepStatus (finalRecord req did env keys oc) "vercel" = some (some StepStatus.error) ∧
      stepError (finalRecord req did env keys oc) "vercel" = some (some e) ∧
      (finalRecord req did env keys oc).error = some e ∧
      (finalRecord req did env keys oc).errorStep = some "vercel") ∧
    (∀ (env : RouteEnv) (keys : ApiKeys) (req : CreateAppRequest) (oc : RouteOutcomes)
      (did e : String),
      env.GITHUB_USERNAME ≠ "" →
      (∃ repo, oc.github_createRepository = Except.ok repo) →
      keys.vercel ≠ "" →
      (∃ p, oc.vercel_createProject = Except.ok p) →
      (∃ ds, oc.vercel_getProjectDeployments = Except.ok ds) →
      keys.mongodb ≠ "" →
      env.MONGODB_PRIVATE_KEY ≠ "" →
      env.MONGODB_ORG_ID ≠ "" →
      (∃ mp, oc.mongo_createProject = Except.ok mp) →
      oc.mongo_createCluster = Except.error e →
      stepStatus (finalRecord req did env keys oc) "mongodb" = some (some StepStatus.error) ∧
      stepError (finalRecord req did env keys oc) "mongodb" = some (some e) ∧
      (finalRecord req did env keys oc).error = some e ∧
      (finalRecord req did env keys oc).errorStep = some "mongodb") ∧
    (∀ (env : RouteEnv) (keys : ApiKeys) (req : CreateAppRequest) (oc : RouteOutcomes)
      (did e : String),
      env.GITHUB_USERNAME ≠ "" →
      (∃ repo, oc.github_createRepository = Except.ok repo) →
      keys.vercel ≠ "" →
      (∃ p, oc.vercel_createProject = Except.ok p) →
      (∃ ds, oc.vercel_getProjectDeployments = Except.ok ds) →
      keys.mongodb ≠ "" →
      env.MONGODB_PRIVATE_KEY ≠ "" →
      env.MONGODB_ORG_ID ≠ "" →
      (∃ mp, oc.mongo_createProject = Except.ok mp) →
      (∃ mc, oc.mongo_createCluster = Except.ok mc) →
      oc.mongo_addIPWhitelist = Except.ok () →
      oc.mongo_createDatabaseUser = Except.ok () →
      (∃ ci, oc.mongo_getCluster = Except.ok ci) →
      keys.clerk ≠ "" →
      oc.clerk_createApplication = Except.error e →
      stepStatus (finalRecord req did env keys oc) "clerk" = some (some StepStatus.error) ∧
      stepError (finalRecord req did env keys oc) "clerk" = some (some e) ∧
      (finalRecord req did env keys oc).error = some e ∧
      (finalRecord req did env keys oc).errorStep = some "clerk") ∧
    (∀ (env : RouteEnv) (keys : ApiKeys) (req : CreateAppRequest) (oc : RouteOutcomes)
      (did e : String),
      env.GITHUB_USERNAME ≠ "" →
      (∃ repo, oc.github_createRepository = Except.ok repo) →
      keys.vercel ≠ "" →
      (∃ p, oc.vercel_createProject = Except.ok p) →
      (∃ ds, oc.vercel_getProjectDeployments = Except.ok ds) →
      keys.mongodb ≠ "" →
      env.MONGODB_PRIVATE_KEY ≠ "" →
      env.MONGODB_ORG_ID ≠ "" →
      (∃ mp, oc.mongo_createProject = Except.ok mp) →
      (∃ mc, oc.mongo_createCluster = Except.ok mc) →
      oc.mongo_addIPWhitelist = Except.ok () →
      oc.mongo_createDatabaseUser = Except.ok () →
      (∃ ci, oc.mongo_getCluster = Except.ok ci) →
      keys.clerk ≠ "" →
      (∃ app, oc.clerk_createApplication = Except.ok app) →
      oc.clerk_setupDefaultConfiguration = Except.ok () →
      (∃ kp, oc.clerk_createAPIKeys = Except.ok kp) →
      env.GOOGLE_CLIENT_EMAIL ≠ "" →
      env.GOOGLE_PRIVATE_KEY ≠ "" →
      oc.google_createProject = Except.error e →
      stepStatus (finalRecord req did env keys oc) "google" = some (some StepStatus.error) ∧
      stepError (finalRecord req did env keys oc) "google" = some (some e) ∧
      (finalRecord req did env keys oc).status = DeployStatus.completed ∧
      (finalRecord req did env keys oc).errorStep = none) ∧
    (∀ (cfg : OrchConfig) (oc : OrchOutcomes) (t0 : Nat) (e : String),
      oc.createRepository = Except.error e →
      DeploymentOrchestrator.deployApplication cfg oc t0 =
        (Except.error e,
         [⟨"github-repo", StepStatus.inProgress, "Creating GitHub repository...", t0⟩,
          ⟨"deployment", StepStatus.error, "Deployment failed: " ++ e, t0 + 1⟩])) := by
  refine ⟨?_, ?_, ?_, ?_, ?_, ?_, ?_⟩
  · intro env keys req oc hu
    exact initiateDeployment_ok env keys req oc hu
  · intro env keys req oc did e hu hgo
    simp_all [finalRecord, initiateDeployment, githubStepWrites, stepStatus, stepError,
      findStep, createDeploymentRecord, initialSteps, applyTrace, Except.toOption,
      Option.getD, applyWrite, updateSteps, applyPatch, inProgressPatch,
      completedPatch, errorPatch, List.find?, List.any]
  · intro env keys req oc did e hu hgo hv hvp
    rcases hgo with ⟨repo, hgo⟩
    simp_all [finalRecord, initiateDeployment, githubStepWrites, vercelStepWrites,
      vercelStepFail, stepStatus, stepError, findStep, createDeploymentRecord,
      initialSteps, applyTrace, Except.toOption, Option.getD, applyWrite, updateSteps,
      applyPatch, inProgressPatch, completedPatch, errorPatch, List.find?, List.any]
  · intro env keys req oc did e hu hgo hv hvp hvd hk1 hk2 hk3 hmp hmc
    rcases hgo with ⟨repo, hgo⟩
    rcases hvp with ⟨p, hvp⟩
    rcases hvd with ⟨ds, hvd⟩
    rcases hmp with ⟨mp, hmp⟩
    simp_all [finalRecord, initiateDeployment, githubStepWrites, vercelStepWrites,
      vercelStepFail, mongoStepWrites, mongoStepFail, stepStatus, stepError, findStep,
      createDeploymentRecord, initialSteps, applyTrace, Except.toOption, Option.getD,
      applyWrite, updateSteps, applyPatch, inProgressPatch, completedPatch, errorPatch,
      List.find?, List.any]
  · intro env keys req oc did e hu hgo hv hvp hvd hk1 hk2 hk3 hmp hmc hmi hmu hgc hck hca
    rcases hgo with ⟨repo, hgo⟩
    rcases hvp with ⟨p, hvp⟩
    rcases hvd with ⟨ds, hvd⟩
    rcases hmp with ⟨mp, hmp⟩
    rcases hmc with ⟨mc, hmc⟩
    rcases hgc with ⟨ci, hgc⟩
    simp_all [finalRecord, initiateDeployment, githubStepWrites, vercelStepWrites,
      vercelStepFail, mongoStepWrites, mongoStepFail, clerkStepWrites, clerkStepFail,
      stepStatus, stepError, findStep, createDeploymentRecord, initialSteps, applyTrace,
      Except.toOption, Option.getD, applyWrite, updateSteps, applyPatch,
      inProgressPatch, completedPatch, errorPatch, List.find?, List.any]
  · intro env keys req oc did e hu hgo hv hvp hvd hk1 hk2 hk3 hmp hmc hmi hmu hgc hck
      hca hcs hckk hge hgk hgp
    rcases hgo with ⟨repo, hgo⟩
    rcases hvp with ⟨p, hvp⟩
    rcases hvd with ⟨ds, hvd⟩
    rcases hmp with ⟨mp, hmp⟩
    rcases hmc with ⟨mc, hmc⟩
    rcases hgc with ⟨ci, hgc⟩
    rcases hca with ⟨app, hca⟩
    rcases hckk with ⟨kp, hckk⟩
    simp_all [finalRecord, initiateDeployment, githubStepWrites, vercelStepWrites,
      vercelStepFail, mongoStepWrites, mongoStepFail, clerkStepWrites, clerkStepFail,
      googleStepWrites, stepStatus, stepError, findStep, createDeploymentRecord,
      initialSteps, applyTrace, Except.toOption, Option.getD, applyWrite, updateSteps,
      applyPatch, inProgressPatch, completedPatch, errorPatch, List.find?, List.any]
  · intro cfg oc t0 e he
    simp [DeploymentOrchestrator.deployApplication,
      DeploymentOrchestrator.deployApplicationTry, pushProgress, he]

/-- Witness for C8 (amended): the github-failure run records the step
error with its message and the top-level error/errorStep. -/
theorem stepBoundary_error_policy_witness :
    stepStatus (finalRecord sampleRequest "d1" sampleEnv sampleKeys ghFailOutcomes)
        "github" = some (some StepStatus.error) ∧
    stepError (finalRecord sampleRequest "d1" sampleEnv sampleKeys ghFailOutcomes)
        "github" = some (some "Error: repo exists") ∧
    (finalRecord sampleRequest "d1" sampleEnv sampleKeys ghFailOutcomes).error =
        some "Error: repo exists" ∧
    (finalRecord sampleRequest "d1" sampleEnv sampleKeys ghFailOutcomes).errorStep =
        some "github" :=
  stepBoundary_error_policy.2.1 sampleEnv sampleKeys sampleRequest ghFailOutcomes "d1"
    "Error: repo exists" (by decide) rfl
